import Mathlib

/-
  Verification development for the `unified-server.js` proxy: a shallow
  embedding of its request pipeline, rotation controller, streaming
  handlers and OpenAI-to-Google payload translation, together with
  theorems settling the specification claims about them.

  Modelling conventions:
  * JavaScript objects that flow through `JSON.parse`/`JSON.stringify`
    are modelled by the inductive `Json` below; numbers are modelled as
    integers (payloads with fractional numbers are outside the model).
  * The per-request message queue is modelled by a finite script
    (`List RelayMsg`) of the events the relay delivers for the request;
    a dequeue on an exhausted script is the queue-timeout failure.
  * Real time (timers, the keep-alive heartbeat interval, the reconnect
    grace window) is not modelled; a timeout is represented by script
    exhaustion.
  * The browser switch operation is external; its result is an oracle
    value (`SwitchOutcome`).
-/

namespace B2A

/-! ## String helpers (JavaScript-style substring operations) -/

/-- Does the character list start with the given needle? -/
def charsStartWith : List Char → List Char → Bool
  | _, [] => true
  | [], _ :: _ => false
  | h :: t, n :: ns => h == n && charsStartWith t ns

/-- Does the haystack contain the needle as a contiguous sublist? -/
def charsContain (hay needle : List Char) : Bool :=
  match hay with
  | [] => needle.isEmpty
  | _ :: t => charsStartWith hay needle || charsContain t needle

/-- JavaScript `hay.includes(needle)`. -/
def strContains (hay needle : String) : Bool :=
  charsContain hay.toList needle.toList

/-- Split the haystack at the first occurrence of the needle, returning
the part before and the part after the needle. -/
def splitFirstAux (needle : List Char) : List Char → Option (List Char × List Char)
  | [] => if needle.isEmpty then some ([], []) else none
  | c :: t =>
      if charsStartWith (c :: t) needle then some ([], (c :: t).drop needle.length)
      else (splitFirstAux needle t).map (fun pr => (c :: pr.1, pr.2))

/-- First-occurrence split on strings. -/
def splitFirst (s needle : String) : Option (String × String) :=
  (splitFirstAux needle.toList s.toList).map
    (fun pr => (String.mk pr.1, String.mk pr.2))

/-- JavaScript `s.replace(a, b)` with a plain-string pattern: replace the
first occurrence only (no-op when absent). -/
def replaceFirst (s a b : String) : String :=
  match splitFirst s a with
  | none => s
  | some (pre, post) => pre ++ b ++ post

/-- ASCII lower-casing of one character (header names are ASCII). -/
def lowerChar (c : Char) : Char :=
  if 'A' ≤ c ∧ c ≤ 'Z' then Char.ofNat (c.toNat + 32) else c

/-- ASCII `toLowerCase` for header-name comparison. -/
def lowerStr (s : String) : String := String.mk (s.toList.map lowerChar)

/-! ## JSON model -/

/-- JSON values as the proxy manipulates them.  Object fields keep
insertion order, as JavaScript objects do. -/
inductive Json where
  | null : Json
  | bool (b : Bool) : Json
  | num (n : Int) : Json
  | str (s : String) : Json
  | arr (xs : List Json) : Json
  | obj (fields : List (String × Json)) : Json

/-- Escaping for `JSON.stringify` (quote, backslash and the common
control characters; other control characters are outside the model). -/
def escapeChars : List Char → List Char
  | [] => []
  | c :: t =>
      (if c = '"' then ['\\', '"']
       else if c = '\\' then ['\\', '\\']
       else if c = '\n' then ['\\', 'n']
       else if c = '\t' then ['\\', 't']
       else if c = '\r' then ['\\', 'r']
       else [c]) ++ escapeChars t

mutual

/-- `JSON.stringify` over the model: field order preserved, no spaces. -/
def Json.stringify : Json → String
  | .null => "null"
  | .bool true => "true"
  | .bool false => "false"
  | .num n => toString n
  | .str s => "\"" ++ String.mk (escapeChars s.toList) ++ "\""
  | .arr xs => "[" ++ stringifyArr xs ++ "]"
  | .obj fs => "\x7b" ++ stringifyFields fs ++ "\x7d"

/-- Comma-joined stringification of array elements. -/
def stringifyArr : List Json → String
  | [] => ""
  | [x] => Json.stringify x
  | x :: y :: t => Json.stringify x ++ "," ++ stringifyArr (y :: t)

/-- Comma-joined stringification of object fields. -/
def stringifyFields : List (String × Json) → String
  | [] => ""
  | [(k, v)] => "\"" ++ String.mk (escapeChars k.toList) ++ "\":" ++ Json.stringify v
  | (k, v) :: f :: t =>
      "\"" ++ String.mk (escapeChars k.toList) ++ "\":" ++ Json.stringify v ++ ","
        ++ stringifyFields (f :: t)

end

mutual

/-- JavaScript template-string coercion of a value (as in backtick
interpolation): objects render as `[object Object]`. -/
def jsToString : Json → String
  | .null => "null"
  | .bool true => "true"
  | .bool false => "false"
  | .num n => toString n
  | .str s => s
  | .obj _ => "[object Object]"
  | .arr xs => jsToStringArr xs

/-- Array-to-string coercion: elements joined by commas, null rendered
as the empty string. -/
def jsToStringArr : List Json → String
  | [] => ""
  | [x] => match x with | .null => "" | y => jsToString y
  | x :: y :: t =>
      (match x with | .null => "" | z => jsToString z) ++ "," ++ jsToStringArr (y :: t)

end

/-- Property lookup on an object (`undefined` is `none`). -/
def Json.getField : Json → String → Option Json
  | .obj fs, k => fs.lookup k
  | _, _ => none

/-- JavaScript truthiness of a JSON value. -/
def Json.truthy : Json → Bool
  | .null => false
  | .bool b => b
  | .num n => n != 0
  | .str s => decide (s ≠ "")
  | .arr _ => true
  | .obj _ => true

/-- Interpolation of an object field, rendering a missing field as the
string `undefined` (as JavaScript templates do). -/
def jsFieldStr (j : Json) (k : String) : String :=
  match j.getField k with
  | some v => jsToString v
  | none => "undefined"

/-! ### JSON parsing (for `JSON.parse` call sites) -/

/-- Skip JSON whitespace. -/
def skipWs : List Char → List Char
  | c :: t => if c = ' ' ∨ c = '\n' ∨ c = '\t' ∨ c = '\r' then skipWs t else c :: t
  | [] => []

/-- Decode a string escape character (\u sequences are outside the model). -/
def escChar (e : Char) : Option Char :=
  if e = 'n' then some '\n'
  else if e = 't' then some '\t'
  else if e = 'r' then some '\r'
  else if e = '"' ∨ e = '\\' ∨ e = '/' then some e
  else none

/-- Parse the characters of a JSON string after the opening quote. -/
def parseStrChars : List Char → Option (List Char × List Char)
  | [] => none
  | '"' :: r => some ([], r)
  | '\\' :: r =>
      match r with
      | [] => none
      | e :: r2 =>
          match escChar e with
          | some c => (parseStrChars r2).map (fun p => (c :: p.1, p.2))
          | none => none
  | c :: r => (parseStrChars r).map (fun p => (c :: p.1, p.2))

/-- Digits to a natural number accumulator. -/
def digitsVal : List Char → Nat → Nat
  | [], acc => acc
  | c :: t, acc => digitsVal t (acc * 10 + (c.toNat - '0'.toNat))

/-- Parse a JSON integer (fractional and exponent forms are outside the
model and fail). -/
def parseNum (cs : List Char) : Option (Json × List Char) :=
  let (neg, cs') := match cs with
    | '-' :: t => (true, t)
    | _ => (false, cs)
  let ds := cs'.takeWhile Char.isDigit
  let rest := cs'.dropWhile Char.isDigit
  if ds.isEmpty then none
  else
    match rest with
    | '.' :: _ => none
    | 'e' :: _ => none
    | 'E' :: _ => none
    | _ =>
        let v : Int := Int.ofNat (digitsVal ds 0)
        some (.num (if neg then -v else v), rest)

mutual

/-- Fuelled recursive-descent JSON value parse. -/
def parseVal : Nat → List Char → Option (Json × List Char)
  | 0, _ => none
  | fuel + 1, cs =>
      match skipWs cs with
      | '"' :: t => (parseStrChars t).map (fun p => (.str (String.mk p.1), p.2))
      | 't' :: 'r' :: 'u' :: 'e' :: r => some (.bool true, r)
      | 'f' :: 'a' :: 'l' :: 's' :: 'e' :: r => some (.bool false, r)
      | 'n' :: 'u' :: 'l' :: 'l' :: r => some (.null, r)
      | '[' :: t =>
          (match skipWs t with
           | ']' :: r => some (.arr [], r)
           | t' => (parseElems fuel t').map (fun p => (.arr p.1, p.2)))
      | '\x7b' :: t =>
          (match skipWs t with
           | '\x7d' :: r => some (.obj [], r)
           | t' => (parseMembers fuel t').map (fun p => (.obj p.1, p.2)))
      | c :: t =>
          if c.isDigit ∨ c = '-' then parseNum (c :: t) else none
      | [] => none

/-- Parse the comma-separated elements of a non-empty array. -/
def parseElems : Nat → List Char → Option (List Json × List Char)
  | 0, _ => none
  | fuel + 1, cs =>
      match parseVal fuel cs with
      | none => none
      | some (v, r) =>
          match skipWs r with
          | ',' :: r2 => (parseElems fuel r2).map (fun p => (v :: p.1, p.2))
          | ']' :: r2 => some ([v], r2)
          | _ => none

/-- Parse the comma-separated members of a non-empty object. -/
def parseMembers : Nat → List Char → Option (List (String × Json) × List Char)
  | 0, _ => none
  | fuel + 1, cs =>
      match skipWs cs with
      | '"' :: t =>
          (match parseStrChars t with
           | none => none
           | some (kcs, r) =>
               match skipWs r with
               | ':' :: r2 =>
                   (match parseVal fuel r2 with
                    | none => none
                    | some (v, r3) =>
                        match skipWs r3 with
                        | ',' :: r4 =>
                            (parseMembers fuel r4).map
                              (fun p => ((String.mk kcs, v) :: p.1, p.2))
                        | '\x7d' :: r4 => some ([(String.mk kcs, v)], r4)
                        | _ => none)
               | _ => none)
      | _ => none

end

/-- `JSON.parse` over the model: `none` is a parse exception. -/
def jsonFromString (s : String) : Option Json :=
  match parseVal (s.length + 1) s.toList with
  | none => none
  | some (j, r) => if (skipWs r).isEmpty then some j else none

/-! ## Relay events

The per-request message queue of `ConnectionRegistry` receives, for one
`request_id`, the routed events `response_headers`, `chunk`, `error`
and the `STREAM_END` sentinel that `_routeMessage` substitutes for
`stream_close`.  Optional fields model absent JSON properties. -/

/-- One message as it sits in a per-request `MessageQueue`. -/
inductive RelayMsg where
  | responseHeaders (status : Option Nat) (headers : List (String × String))
  | chunk (data : Option String)
  | error (status : Option Nat) (message : Option String)
  | streamEnd
deriving DecidableEq

/-- `message.event_type === "error"`. -/
def RelayMsg.isError : RelayMsg → Bool
  | .error _ _ => true
  | _ => false

/-- The `.status` property (present on `response_headers` and `error`). -/
def RelayMsg.statusField : RelayMsg → Option Nat
  | .responseHeaders st _ => st
  | .error st _ => st
  | _ => none

/-- The `.headers` property of a `response_headers` event. -/
def RelayMsg.headersField : RelayMsg → List (String × String)
  | .responseHeaders _ hs => hs
  | _ => []

/-- The `.message` property of an `error` event. -/
def RelayMsg.errMsg : RelayMsg → Option String
  | .error _ m => m
  | _ => none

/-- The `.data` property of a `chunk` event. -/
def RelayMsg.dataField : RelayMsg → Option String
  | .chunk d => d
  | _ => none

/-- `lastMessage.message?.includes("aborted")`: an absent message is not
treated as a client abort. -/
def containsAborted : Option String → Bool
  | some s => strContains s "aborted"
  | none => false

/-- An `error` event whose message marks a client cancellation. -/
def isAbortedError (m : RelayMsg) : Bool :=
  m.isError && containsAborted m.errMsg

/-- JavaScript `x || d` on an optional number: `undefined` and `0` are
falsy and yield the default. -/
def jsOrN (o : Option Nat) (d : Nat) : Nat :=
  match o with
  | some 0 => d
  | some s => s
  | none => d

/-- JavaScript `x || d` on an optional string: `undefined` and the empty
string are falsy and yield the default. -/
def jsOrStr (o : Option String) (d : String) : String :=
  match o with
  | some s => if s = "" then d else s
  | none => d

/-! ## HTTP response model

The express `res` handle.  A status line is committed to the client at
the first write/end (`headersSent` becomes true); `starts` counts how
many status lines were committed, which the single-response-start claim
is about. -/

/-- State of an express response handle. -/
structure Response where
  statusCode : Nat := 200
  headers : List (String × String) := []
  headersSent : Bool := false
  committedStatus : Option Nat := none
  starts : Nat := 0
  body : List String := []
  writableEnded : Bool := false
deriving DecidableEq

/-- A fresh response handle, as express passes it to a route. -/
def Response.fresh : Response := {}

/-- `res.status(s)`: record the pending status code. -/
def Response.status (r : Response) (s : Nat) : Response :=
  { r with statusCode := s }

/-- Replace a header case-insensitively, appending when absent. -/
def upsertHeader : List (String × String) → String → String → List (String × String)
  | [], n, v => [(n, v)]
  | (n', v') :: t, n, v =>
      if lowerStr n' == lowerStr n then (n', v) :: t
      else (n', v') :: upsertHeader t n v

/-- `res.set(name, value)`: headers can no longer change once sent. -/
def Response.setHeader (r : Response) (n v : String) : Response :=
  if r.headersSent then r else { r with headers := upsertHeader r.headers n v }

/-- Flush the status line and headers on first write (express commit). -/
def Response.commit (r : Response) : Response :=
  if r.headersSent then r
  else { r with headersSent := true, committedStatus := some r.statusCode,
                starts := r.starts + 1 }

/-- `res.write(data)`. -/
def Response.write (r : Response) (d : String) : Response :=
  let r' := r.commit
  { r' with body := r'.body ++ [d] }

/-- `res.end()`. -/
def Response.end (r : Response) : Response :=
  let r' := r.commit
  { r' with writableEnded := true }

/-- `res.send(s)` after `.type("application/json")` in the source always
follows a status call; the content type is set by the caller. -/
def Response.send (r : Response) (s : String) : Response :=
  (r.write s).end

/-- `res.json(j)`: set the JSON content type, serialise, send. -/
def Response.json (r : Response) (j : Json) : Response :=
  ((r.setHeader "Content-Type" "application/json").write (Json.stringify j)).end

/-- The `finally` blocks end the response when not already ended. -/
def finallyEnd (r : Response) : Response :=
  if r.writableEnded then r else r.end

/-! ## Configuration, flags and rotation state -/

/-- The relevant part of `ProxyServerSystem._loadConfiguration`. -/
structure Config where
  failureThreshold : Nat := 3
  switchOnUses : Nat := 40
  maxRetries : Nat := 1
  retryDelay : Nat := 2000
  immediateSwitchStatusCodes : List Nat := [429, 503]
deriving DecidableEq

/-- The mutable mode flags living on `ProxyServerSystem`. -/
structure SystemFlags where
  streamingMode : String := "real"
  enableReasoning : Bool := false
  enableNativeReasoning : Bool := false
  enableResume : Bool := false
  resumeLimit : Int := 3
  redirect25to30 : Bool := false
deriving DecidableEq

/-- The mutable counters and flags of `RequestHandler`. -/
structure HState where
  failureCount : Nat := 0
  usageCount : Nat := 0
  activeRequestCount : Nat := 0
  pendingSwitch : Bool := false
  isAuthSwitching : Bool := false
  isSystemBusy : Bool := false
deriving DecidableEq

/-- Environment oracle for one `browserManager` switch attempt:
`ok` — `switchAccount` succeeds; `fallback` — it fails but the rollback
`launchOrSwitchContext(previous)` succeeds; `fail` — both fail. -/
inductive SwitchOutcome where
  | ok
  | fallback
  | fail
deriving DecidableEq

/-- Result value of `_switchToNextAuth` as its callers inspect it
(`failed` models the propagated exception of a failed rollback). -/
inductive SwitchRes where
  | busy
  | success
  | fallback
  | failed
deriving DecidableEq

/-- Observation recorded at the moment a rotation actually begins
executing, i.e. when `_switchToNextAuth` passes its busy guard and
invokes the browser switch. -/
structure SwitchEvent where
  activeAtBegin : Nat
  authSwitchingAtBegin : Bool
deriving DecidableEq

/-- `RequestHandler._switchToNextAuth`.  The early busy return happens
before any flag is touched; otherwise `isAuthSwitching`/`isSystemBusy`
are raised and the `finally` clears them, counters are reset exactly on
a successful switch or a successful rollback. -/
def switchToNextAuth (o : SwitchOutcome) (h : HState) :
    SwitchRes × HState × List SwitchEvent :=
  if h.isAuthSwitching then (.busy, h, [])
  else
    let ev : SwitchEvent := ⟨h.activeRequestCount, h.isAuthSwitching⟩
    match o with
    | .ok =>
        (.success,
         { h with failureCount := 0, usageCount := 0,
                  isAuthSwitching := false, isSystemBusy := false }, [ev])
    | .fallback =>
        (.fallback,
         { h with failureCount := 0, usageCount := 0,
                  isAuthSwitching := false, isSystemBusy := false }, [ev])
    | .fail =>
        (.failed,
         { h with isAuthSwitching := false, isSystemBusy := false }, [ev])

/-- `RequestHandler._tryExecutePendingSwitch`: the deferred (idle)
rotation trigger; its `finally` clears `pendingSwitch` whether the
switch succeeded or threw. -/
def tryExecutePendingSwitch (o : SwitchOutcome) (h : HState) :
    HState × List SwitchEvent :=
  if h.pendingSwitch && h.activeRequestCount == 0 && !h.isAuthSwitching then
    let (_, h', ev) := switchToNextAuth o h
    ({ h' with pendingSwitch := false }, ev)
  else (h, [])

/-- `RequestHandler._sendErrorChunkToClient`: an SSE error chunk; a
`message: undefined` field is dropped by `JSON.stringify`. -/
def sendErrorChunkToClient (r : Response) (msg : Option String) : Response :=
  let chunk := "data: " ++ Json.stringify (.obj [("error", .obj
      ((match msg with | some m => [("message", Json.str m)] | none => [])
        ++ [("code", Json.str "proxy_error")]))]) ++ "\n\n"
  if r.writableEnded then r else r.write chunk

/-- Body of the JSON error payload of `_sendErrorResponse`. -/
def errorBody (status : Nat) (msg : Option String) : Json :=
  .obj [("error", .obj ([("code", Json.num status)]
      ++ (match msg with | some m => [("message", Json.str m)] | none => [])
      ++ [("status", Json.str "SERVICE_UNAVAILABLE")]))]

/-- `RequestHandler._sendErrorResponse` (no-op once headers are sent). -/
def sendErrorResponse (r : Response) (status : Option Nat) (msg : Option String) :
    Response :=
  if r.headersSent then r
  else (r.status (jsOrN status 500)).json (errorBody (jsOrN status 500) msg)

/-- `RequestHandler._handleRequestError`: after headers are sent an
error can only end the body; before that it sends 504 for messages
containing "Timeout" and 500 otherwise. -/
def handleRequestError (errMsg : String) (r : Response) : Response :=
  if r.headersSent then (if r.writableEnded then r else r.end)
  else sendErrorResponse r (some (if strContains errMsg "Timeout" then 504 else 500))
        (some errMsg)

/-- `RequestHandler._handleRequestFailureAndSwitch`: bump the failure
counter when a threshold is configured, then switch immediately on a
configured status code or on reaching the threshold.  Returns the new
state, the (possibly written-to) response when one was supplied, and
the rotation-begin events. -/
def handleRequestFailureAndSwitch (cfg : Config) (o : SwitchOutcome)
    (errStatus : Option Nat) (_errMessage : Option String)
    (res : Option Response) (h : HState) :
    HState × Option Response × List SwitchEvent :=
  let h1 := if cfg.failureThreshold > 0
    then { h with failureCount := h.failureCount + 1 } else h
  let isImmediate := match errStatus with
    | some s => cfg.immediateSwitchStatusCodes.contains s
    | none => false
  let isThresholdReached :=
    cfg.failureThreshold > 0 && h1.failureCount ≥ cfg.failureThreshold
  if isImmediate || isThresholdReached then
    let (r, h2, ev) := switchToNextAuth o h1
    match r with
    | .success => (h2, res, ev)
    | .fallback =>
        (h2, res.map (fun rr => sendErrorChunkToClient rr (some "自动切换失败，已回退原账号")), ev)
    | .failed =>
        (h2, res.map (fun rr => sendErrorChunkToClient rr (some "服务暂时不可用 (Switch Failed)")), ev)
    | .busy => (h2, res, ev)
  else (h1, res, [])

/-! ## OpenAI → Google translation (`_translateOpenAIToGoogle`) -/

/-- One entry of an OpenAI array-content message.  `other` stands for a
part whose `type` is neither `"text"` nor `"image_url"` (skipped by the
loop). -/
inductive OAIContentPart where
  | text (t : String)
  | imageUrl (url : String)
  | other
deriving DecidableEq

/-- OpenAI message content: a plain string, an array of parts, or a
value that is neither (the loop then pushes no parts). -/
inductive OAIContent where
  | str (s : String)
  | parts (ps : List OAIContentPart)
  | undef
deriving DecidableEq

/-- One OpenAI chat message. -/
structure OAIMessage where
  role : String
  content : OAIContent
deriving DecidableEq

/-- A Google content part produced by the translator. -/
inductive GPart where
  | text (t : String)
  | inlineData (mimeType data : String)
deriving DecidableEq

/-- A Google `contents[]` entry. -/
structure GContent where
  role : String
  parts : List GPart
deriving DecidableEq

/-- The `Array.prototype.join` coercion applied to the raw `content`
values of the system messages: strings stay, arrays of objects render
as comma-joined `[object Object]`, an absent content renders empty. -/
def contentJoinString : OAIContent → String
  | .str s => s
  | .parts ps => String.intercalate "," (ps.map (fun _ => "[object Object]"))
  | .undef => ""

/-- The regex `/^data:(image\/.*?);base64,(.*)$/` of the source.  The
lazy group takes the first `;base64,` occurrence; since neither `.`
matches a newline and the separator contains none, backtracking to a
later occurrence can never succeed when the first split fails, so the
first split is exact. -/
def matchDataImageUrl (url : String) : Option (String × String) :=
  if charsStartWith url.toList "data:image/".toList then
    match splitFirst (String.mk (url.toList.drop 11)) ";base64," with
    | some (pre, post) =>
        if pre.toList.contains '\n' || post.toList.contains '\n' then none
        else some ("image/" ++ pre, post)
    | none => none
  else none

/-- Translation of one content part (`text` kept, matching data URLs to
`inlineData`, everything else dropped). -/
def partToGoogle : OAIContentPart → List GPart
  | .text t => [.text t]
  | .imageUrl url =>
      (match matchDataImageUrl url with
       | some (m, d) => [.inlineData m d]
       | none => [])
  | .other => []

/-- `googleParts` for one conversation message. -/
def msgParts : OAIContent → List GPart
  | .str s => [.text s]
  | .parts ps => ps.flatMap partToGoogle
  | .undef => []

/-- The `for`-loop of the source pushing one Google content per
non-system message (assistant becomes `model`, everything else becomes
`user`). -/
def googleContentsOfMessages (ms : List OAIMessage) : List GContent :=
  (ms.filter (fun m => m.role != "system")).foldl
    (fun acc m =>
      acc ++ [⟨if m.role == "assistant" then "model" else "user", msgParts m.content⟩])
    []

/-- The merged `systemInstruction` parts (`none` when no system message
exists and the key is omitted). -/
def systemInstructionOfMessages (ms : List OAIMessage) : Option (List GPart) :=
  let sys := ms.filter (fun m => m.role == "system")
  if sys.length > 0 then
    some [.text (String.intercalate "\n" (sys.map (fun m => contentJoinString m.content)))]
  else none

/-- The OpenAI request body fields the handler reads.  An absent or
non-array `messages` makes the translation throw (the 400 path);
sampling parameters are modelled as optional integers. -/
structure OAIBody where
  messages : Option (List OAIMessage) := none
  stream : Option Bool := none
  model : Option String := none
  temperature : Option Int := none
  top_p : Option Int := none
  top_k : Option Int := none
  max_tokens : Option Int := none
  stop : Option (List String) := none
deriving DecidableEq

/-- The full translated Google request. -/
structure GoogleReq where
  contents : List GContent
  systemInstruction : Option (List GPart)
  temperature : Option Int
  top_p : Option Int
  top_k : Option Int
  max_tokens : Option Int
  stop : Option (List String)
  includeThoughts : Bool
deriving DecidableEq

/-- `RequestHandler._translateOpenAIToGoogle`; `none` models the thrown
`TypeError` when `messages` is absent. -/
def translateOpenAIToGoogle (enableReasoning : Bool) (body : OAIBody) :
    Option GoogleReq :=
  match body.messages with
  | none => none
  | some ms =>
      some { contents := googleContentsOfMessages ms,
             systemInstruction := systemInstructionOfMessages ms,
             temperature := body.temperature, top_p := body.top_p,
             top_k := body.top_k, max_tokens := body.max_tokens,
             stop := body.stop, includeThoughts := enableReasoning }

/-- Serialisation of a Google part for the forwarded frame body. -/
def gpartToJson : GPart → Json
  | .text t => .obj [("text", .str t)]
  | .inlineData m d =>
      .obj [("inlineData", .obj [("mimeType", .str m), ("data", .str d)])]

/-- The fixed `safetySettings` appended by the translator. -/
def safetySettingsJson : Json :=
  .arr ([ "HARM_CATEGORY_HARASSMENT", "HARM_CATEGORY_HATE_SPEECH",
          "HARM_CATEGORY_SEXUALLY_EXPLICIT", "HARM_CATEGORY_DANGEROUS_CONTENT" ].map
    (fun c => .obj [("category", .str c), ("threshold", .str "BLOCK_NONE")]))

/-- The Google request as the JSON object that gets stringified into the
frame body; `undefined` generation-config entries are dropped, matching
`JSON.stringify`. -/
def googleReqToJson (g : GoogleReq) : Json :=
  .obj ([("contents", .arr (g.contents.map (fun c =>
            .obj [("role", .str c.role), ("parts", .arr (c.parts.map gpartToJson))])))]
    ++ (match g.systemInstruction with
        | some ps => [("systemInstruction", .obj [("parts", .arr (ps.map gpartToJson))])]
        | none => [])
    ++ [("generationConfig", .obj (
          (match g.temperature with | some v => [("temperature", Json.num v)] | none => [])
          ++ (match g.top_p with | some v => [("topP", Json.num v)] | none => [])
          ++ (match g.top_k with | some v => [("topK", Json.num v)] | none => [])
          ++ (match g.max_tokens with | some v => [("maxOutputTokens", Json.num v)] | none => [])
          ++ (match g.stop with
              | some vs => [("stopSequences", Json.arr (vs.map Json.str))] | none => [])
          ++ (if g.includeThoughts then
                [("thinkingConfig", Json.obj [("includeThoughts", Json.bool true)])]
              else [])))]
    ++ [("safetySettings", safetySettingsJson)])

/-! ## Request building -/

/-- The incoming express request as the handlers read it. -/
structure HttpReq where
  method : String := "GET"
  path : String := "/"
  accept : Option String := none
  headers : List (String × String) := []
  query : List (String × String) := []
  body : Option Json := none

/-- The frame forwarded to the relay over the WebSocket. -/
structure ProxyRequest where
  path : String
  method : String
  headers : List (String × String)
  query_params : List (String × String)
  body : String
  request_id : String
  streaming_mode : String
  is_generative : Bool := false
  client_wants_stream : Bool := false
  resume_on_prohibit : Bool
  resume_limit : Int
deriving DecidableEq

/-- Replace an object field in place (insertion order kept, new fields
appended), as a JavaScript property assignment does. -/
def setAssoc : List (String × Json) → String → Json → List (String × Json)
  | [], k, v => [(k, v)]
  | (k', v') :: t, k, v =>
      if k' == k then (k', v) :: t else (k', v') :: setAssoc t k v

/-- The native-reasoning injection of `_buildProxyRequest`: ensure a
`generationConfig` object and overwrite its `thinkingConfig`.  A truthy
non-object `generationConfig`, or a non-object body, is left unchanged
(the sloppy-mode property writes are silent no-ops or the thrown error
is swallowed, leaving the copied body as it was). -/
def injectThinking : Json → Json
  | .obj fs =>
      let thinkObj : Json := .obj [("includeThoughts", .bool true)]
      (match fs.lookup "generationConfig" with
       | some (.obj g) =>
           .obj (setAssoc fs "generationConfig" (.obj (setAssoc g "thinkingConfig" thinkObj)))
       | some v =>
           if v.truthy then .obj fs
           else .obj (setAssoc fs "generationConfig" (.obj [("thinkingConfig", thinkObj)]))
       | none => .obj (setAssoc fs "generationConfig" (.obj [("thinkingConfig", thinkObj)])))
  | j => j

/-- `RequestHandler._buildProxyRequest`. -/
def buildProxyRequest (fl : SystemFlags) (req : HttpReq) (rid : String) : ProxyRequest :=
  let finalBody :=
    if fl.enableNativeReasoning
        && (strContains req.path "generateContent"
            || strContains req.path "streamGenerateContent") then
      req.body.map injectThinking
    else req.body
  { path := req.path, method := req.method, headers := req.headers,
    query_params := req.query,
    body := match finalBody with | some j => Json.stringify j | none => "",
    request_id := rid, streaming_mode := fl.streamingMode,
    resume_on_prohibit := fl.enableResume, resume_limit := fl.resumeLimit }

/-- The usage-based rotation trigger shared by `processRequest` and
`processOpenAIRequest` (source lines 786-791 and 835-840): on an
accepted generative request with `switchOnUses > 0` and no pending
switch, increment `usageCount` and raise `pendingSwitch` when the
counter reaches the limit. -/
def usageSwitchUpdate (switchOnUses : Nat) (p : Nat × Bool) : Nat × Bool :=
  if switchOnUses > 0 && !p.2 then
    let u := p.1 + 1
    (u, decide (u ≥ switchOnUses))
  else p

/-! ## Streaming handlers -/

/-- One upstream header copied by `_setResponseHeaders`:
`Content-Length` is dropped, and `Content-Type` is dropped on
streams. -/
def copyHeaderStep (isStream : Bool) (r : Response) (nv : String × String) : Response :=
  if lowerStr nv.1 == "content-length" then r
  else if isStream && lowerStr nv.1 == "content-type" then r
  else r.setHeader nv.1 nv.2

/-- `_setResponseHeaders`: copy upstream headers minus `Content-Length`
(and minus `Content-Type` on streams), then force the SSE headers. -/
def setResponseHeaders (res : Response) (m : RelayMsg) (isStream : Bool) : Response :=
  let res1 := res.status (jsOrN m.statusField 200)
  let res2 := m.headersField.foldl (copyHeaderStep isStream) res1
  if isStream then
    ((res2.setHeader "Content-Type" "text/event-stream").setHeader
        "Cache-Control" "no-cache").setHeader "Connection" "keep-alive"
  else res2

/-- One dequeue in the pseudo-stream retry loop: any rejection of the
raced promise (timeout or closed queue) is collapsed by the `catch`
into a synthetic `error{504, "Timeout"}` event. -/
def dequeueOrTimeout : List RelayMsg → RelayMsg × List RelayMsg
  | [] => (.error (some 504) (some "Timeout"), [])
  | m :: rest => (m, rest)

/-- The i-th message the pseudo-stream loop would dequeue from a given
script (exhausted positions yield the synthetic timeout error). -/
def dqAt (script : List RelayMsg) (i : Nat) : RelayMsg :=
  script.getD i (.error (some 504) (some "Timeout"))

/-- Outcome of the pseudo-stream retry loop. -/
structure PLoopOut where
  lastMsg : Option RelayMsg
  failed : Bool
  rest : List RelayMsg
  fwds : Nat
deriving DecidableEq

/-- The `for (attempt = 1; attempt <= maxRetries; ...)` loop of
`_handlePseudoStreamResponse`: forward, dequeue, retry on a non-aborted
error while attempts remain (`attempt < maxRetries`), mark the request
failed on the final non-aborted error, and stop without failure on an
aborted error or any non-error message.  `fwds` counts forwards. -/
def pseudoAttempts : Nat → List RelayMsg → PLoopOut
  | 0, script => ⟨none, false, script, 0⟩
  | n + 1, script =>
      let msg := (dequeueOrTimeout script).1
      let rest := (dequeueOrTimeout script).2
      if msg.isError then
        if !containsAborted msg.errMsg then
          if n > 0 then
            let r := pseudoAttempts n rest
            ⟨r.lastMsg, r.failed, r.rest, r.fwds + 1⟩
          else ⟨some msg, true, rest, 1⟩
        else ⟨some msg, false, rest, 1⟩
      else ⟨some msg, false, rest, 1⟩

/-- Joint result of a request handler: rotation state, response handle,
forwarded frames and rotation-begin events. -/
structure RunOut where
  h : HState
  res : Response
  fwd : List ProxyRequest
  sw : List SwitchEvent
deriving DecidableEq

/-- `_handlePseudoStreamResponse`.  The keep-alive heartbeat interval is
timer-driven and not modelled.  After a non-failed loop the handler
resets the failure counter, dequeues the buffered payload and the end
sentinel (an exhausted script is the thrown queue timeout, handled by
`_handleRequestError`), writes the payload and the `[DONE]` marker. -/
def pseudoStream (cfg : Config) (o : SwitchOutcome) (conn : Bool)
    (pr : ProxyRequest) (script : List RelayMsg) (h : HState) (res : Response) :
    RunOut :=
  let res := (((res.status 200).setHeader "Content-Type" "text/event-stream").setHeader
      "Cache-Control" "no-cache").setHeader "Connection" "keep-alive"
  if cfg.maxRetries ≥ 1 && !conn then
    ⟨h, finallyEnd (handleRequestError "No available browser connection." res), [], []⟩
  else
    let L := pseudoAttempts cfg.maxRetries script
    let fwd := List.replicate L.fwds pr
    if L.failed then
      let out := handleRequestFailureAndSwitch cfg o
          (L.lastMsg.bind RelayMsg.statusField) (L.lastMsg.bind RelayMsg.errMsg)
          (some res) h
      let res1 := sendErrorChunkToClient (out.2.1.getD res) (L.lastMsg.bind RelayMsg.errMsg)
      ⟨out.1, finallyEnd res1, fwd, out.2.2⟩
    else
      let h1 := if h.failureCount > 0 then { h with failureCount := 0 } else h
      match L.rest with
      | [] => ⟨h1, finallyEnd (handleRequestError "Queue timeout" res), fwd, []⟩
      | dataMsg :: rest2 =>
          match rest2 with
          | [] => ⟨h1, finallyEnd (handleRequestError "Queue timeout" res), fwd, []⟩
          | _ :: _ =>
              let res1 := match dataMsg.dataField with
                | some d => if d = "" then res else res.write ("data: " ++ d ++ "\n\n")
                | none => res
              ⟨h1, finallyEnd (res1.write "data: [DONE]\n\n"), fwd, []⟩

/-- The chunk-copy loop of `_handleRealStreamResponse`: write each
truthy `data` field until `STREAM_END`; an exhausted script is the
swallowed inter-chunk queue timeout that just ends the loop. -/
def realStreamDrain (r : Response) : List RelayMsg → Response
  | [] => r
  | m :: rest =>
      match m with
      | .streamEnd => r
      | _ =>
          match m.dataField with
          | some d => if d = "" then realStreamDrain r rest
                      else realStreamDrain (r.write d) rest
          | none => realStreamDrain r rest

/-- `_handleRealStreamResponse`.  The second component is an error that
propagates into `processRequest`'s catch block. -/
def realStream (cfg : Config) (o : SwitchOutcome) (conn : Bool)
    (pr : ProxyRequest) (script : List RelayMsg) (h : HState) (res : Response) :
    RunOut × Option String :=
  if !conn then (⟨h, res, [], []⟩, some "No available browser connection.")
  else
    match script with
    | [] => (⟨h, res, [pr], []⟩, some "Queue timeout")
    | m :: rest =>
        if m.isError then
          let out := handleRequestFailureAndSwitch cfg o m.statusField m.errMsg none h
          (⟨out.1, sendErrorResponse res m.statusField m.errMsg, [pr], out.2.2⟩, none)
        else
          let h1 := if h.failureCount > 0 then { h with failureCount := 0 } else h
          let res1 := setResponseHeaders res m true
          (⟨h1, finallyEnd (realStreamDrain res1 rest), [pr], []⟩, none)

/-- The body-collection loop shared by the non-stream handlers: drain
until `STREAM_END`, concatenating truthy `chunk.data`; `none` is the
thrown queue timeout of an exhausted script. -/
def nonStreamDrain : List RelayMsg → Option (String × List RelayMsg)
  | [] => none
  | .streamEnd :: rest => some ("", rest)
  | .chunk (some d) :: rest => (nonStreamDrain rest).map (fun p => (d ++ p.1, p.2))
  | _ :: rest => nonStreamDrain rest

/-- `parsedBody.candidates?.[0]` (an array with a first element). -/
def candidate0 (j : Json) : Option Json :=
  match j.getField "candidates" with
  | some (.arr (c :: _)) => some c
  | _ => none

/-- Truthiness of `p.inlineData`. -/
def hasInline (p : Json) : Bool :=
  match p.getField "inlineData" with
  | some v => v.truthy
  | none => false

/-- Truthiness of `p.thought`. -/
def hasThought (p : Json) : Bool :=
  match p.getField "thought" with
  | some v => v.truthy
  | none => false

/-- `p.text || ""` as appended to a string accumulator. -/
def jsTextOrEmpty (p : Json) : String :=
  match p.getField "text" with
  | some v => if v.truthy then jsToString v else ""
  | none => ""

/-- The in-place replacement of the first inline-data part by a Markdown
image text part (`_handleNonStreamResponse`). -/
def mdImagePart (p : Json) : Json :=
  let img := (p.getField "inlineData").getD .null
  .obj [("text", .str ("![Image](data:" ++ jsFieldStr img "mimeType"
      ++ ";base64," ++ jsFieldStr img "data" ++ ")"))]

/-- Replace the first part carrying inline data. -/
def rewriteInlineList : List Json → List Json
  | [] => []
  | p :: t => if hasInline p then mdImagePart p :: t else p :: rewriteInlineList t

/-- Rebuild `candidates[0].content.parts` inside the parsed body, the
way the JavaScript index assignment mutates it. -/
def rewriteParts (j : Json) (newParts : List Json) : Json :=
  match j with
  | .obj fs =>
      (match fs.lookup "candidates" with
       | some (.arr (c0 :: crest)) =>
           (match c0 with
            | .obj cfs =>
                (match cfs.lookup "content" with
                 | some (.obj confs) =>
                     .obj (setAssoc fs "candidates" (.arr
                       (Json.obj (setAssoc cfs "content"
                         (.obj (setAssoc confs "parts" (.arr newParts)))) :: crest)))
                 | _ => j)
            | _ => j)
       | _ => j)
  | _ => j

/-- The image-rewrite block of `_handleNonStreamResponse`: parse the
buffered body, and when some `candidates[0].content.parts[i].inlineData`
is present, rewrite that part in place and re-stringify; any thrown
error (parse failure, `parts` not an array) leaves the body unchanged. -/
def rewriteFullBody (s : String) : String :=
  match jsonFromString s with
  | none => s
  | some j =>
      match candidate0 j with
      | none => s
      | some c =>
          match c.getField "content" with
          | none => s
          | some con =>
              match con.getField "parts" with
              | some (.arr ps) =>
                  if ps.any hasInline then
                    Json.stringify (rewriteParts j (rewriteInlineList ps))
                  else s
              | _ => s

/-- `_handleNonStreamResponse`.  The forward happens before the `try`
block, so its failure propagates (second component); everything else is
caught inside the handler. -/
def nonStream (cfg : Config) (o : SwitchOutcome) (conn : Bool)
    (pr : ProxyRequest) (script : List RelayMsg) (h : HState) (res : Response) :
    RunOut × Option String :=
  if !conn then (⟨h, res, [], []⟩, some "No available browser connection.")
  else
    match script with
    | [] => (⟨h, handleRequestError "Queue timeout" res, [pr], []⟩, none)
    | m :: rest =>
        if m.isError then
          let out := handleRequestFailureAndSwitch cfg o m.statusField m.errMsg none h
          (⟨out.1, sendErrorResponse res (some (jsOrN m.statusField 500)) m.errMsg,
            [pr], out.2.2⟩, none)
        else
          match nonStreamDrain rest with
          | none => (⟨h, handleRequestError "Queue timeout" res, [pr], []⟩, none)
          | some (fullBody, _) =>
              let h1 := if h.failureCount > 0 then { h with failureCount := 0 } else h
              let b := rewriteFullBody fullBody
              (⟨h1, ((res.status (jsOrN m.statusField 200)).setHeader
                      "Content-Type" "application/json").send
                      (if b = "" then "\x7b\x7d" else b), [pr], []⟩, none)

/-! ## The pass-through pipeline (`processRequest`) -/

/-- `client_wants_stream` selection: `Accept` includes
`text/event-stream` or the path contains `:streamGenerateContent`. -/
def wantsStreamOf (req : HttpReq) : Bool :=
  (match req.accept with
   | some a => strContains a "text/event-stream"
   | none => false) || strContains req.path ":streamGenerateContent"

/-- Generative-request classification: a POST whose path mentions
`generateContent` or `streamGenerateContent`. -/
def isGenerativeOf (req : HttpReq) : Bool :=
  req.method == "POST"
    && (strContains req.path "generateContent"
        || strContains req.path "streamGenerateContent")

/-- The `catch` block shared by `processRequest` and
`processOpenAIRequest`: an error escaping a handler is passed to
`_handleRequestError`. -/
def applyCatch (p : RunOut × Option String) : RunOut :=
  match p.2 with
  | some e => { p.1 with res := handleRequestError e p.1.res }
  | none => p.1

/-- The part of `processRequest` after the acceptance gate, the
active-count increment and the recovery block.  `conn` reflects the
relay connection available to `_forwardRequest`. -/
def processRequestMain (cfg : Config) (fl : SystemFlags) (rid : String)
    (conn : Bool) (oFail oIdle : SwitchOutcome) (req : HttpReq)
    (script : List RelayMsg) (h : HState) (res : Response) : RunOut :=
  let isGen := isGenerativeOf req
  let h1 := if cfg.switchOnUses > 0 && isGen && !h.pendingSwitch then
      let p := usageSwitchUpdate cfg.switchOnUses (h.usageCount, h.pendingSwitch)
      { h with usageCount := p.1, pendingSwitch := p.2 }
    else h
  let pr0 := buildProxyRequest fl req rid
  let pr1 := if fl.redirect25to30 && strContains pr0.path "gemini-2.5-pro" then
      { pr0 with path := replaceFirst pr0.path "gemini-2.5-pro" "gemini-3-pro-preview" }
    else pr0
  let step : RunOut × Option String :=
    if wantsStreamOf req then
      if fl.streamingMode == "fake" then
        (pseudoStream cfg oFail conn { pr1 with is_generative := isGen } script h1 res, none)
      else
        realStream cfg oFail conn { pr1 with is_generative := isGen } script h1 res
    else
      nonStream cfg oFail conn
        { pr1 with is_generative := isGen, streaming_mode := "fake" } script h1 res
  let out := applyCatch step
  let h2 := { out.h with activeRequestCount := out.h.activeRequestCount - 1 }
  let idle := tryExecutePendingSwitch oIdle h2
  ⟨idle.1, out.res, out.fwd, out.sw ++ idle.2⟩

/-- `RequestHandler.processRequest`: acceptance gate, active-count
increment, auto-recovery when no relay connection is live (`recoverOk`
is the outcome of the relaunch), busy rejection, then the main path.
The client-disconnect cancel hook is timer/event-driven and not
modelled. -/
def processRequest (cfg : Config) (fl : SystemFlags) (rid : String)
    (conn recoverOk : Bool) (oFail oIdle : SwitchOutcome) (req : HttpReq)
    (script : List RelayMsg) (h : HState) (res : Response) : RunOut :=
  if h.pendingSwitch || h.isAuthSwitching then
    ⟨h, sendErrorResponse res (some 503) (some "Server rotating accounts..."), [], []⟩
  else
    let h1 := { h with activeRequestCount := h.activeRequestCount + 1 }
    if !conn then
      if h1.isSystemBusy then
        ⟨{ h1 with activeRequestCount := h1.activeRequestCount - 1 },
          sendErrorResponse res (some 503) (some "Server recovering..."), [], []⟩
      else if !recoverOk then
        ⟨{ h1 with activeRequestCount := h1.activeRequestCount - 1, isSystemBusy := false },
          sendErrorResponse res (some 503) (some "Service unavailable"), [], []⟩
      else
        processRequestMain cfg fl rid true oFail oIdle req script
          { h1 with isSystemBusy := false } res
    else if h1.isSystemBusy then
      ⟨{ h1 with activeRequestCount := h1.activeRequestCount - 1 },
        sendErrorResponse res (some 503) (some "Server busy"), [], []⟩
    else
      processRequestMain cfg fl rid conn oFail oIdle req script h1 res

/-! ## The OpenAI pipeline (`processOpenAIRequest`) -/

/-- `_translateGoogleToOpenAIStream`: one relay chunk to one OpenAI
`chat.completion.chunk` SSE frame (`cid` stands for the freshly minted
chunk id, `now` for `Date.now()` in milliseconds). -/
def translateGoogleToOpenAIStream (cid : String) (now : Nat) (modelName : String)
    (googleChunk : String) : Option String :=
  if googleChunk = "" || googleChunk.trim = "" then none
  else
    let jsonString := if googleChunk.startsWith "data: "
      then (googleChunk.drop 6).trim else googleChunk
    if jsonString = "" || jsonString = "[DONE]" then none
    else
      match jsonFromString jsonString with
      | none => none
      | some gj =>
          match candidate0 gj with
          | none => none
          | some c =>
              if !c.truthy then none
              else
                let prts := match c.getField "content" with
                  | some con =>
                      (match con.getField "parts" with
                       | some (.arr xs) => xs
                       | _ => [])
                  | none => []
                let acc := prts.foldl
                  (fun (a : String × String) p =>
                    if hasInline p then (a.1 ++ "![Image]", a.2)
                    else if hasThought p then (a.1, a.2 ++ jsTextOrEmpty p)
                    else (a.1 ++ jsTextOrEmpty p, a.2)) ("", "")
                let fr := c.getField "finishReason"
                let frTruthy := match fr with | some v => v.truthy | none => false
                if acc.1 = "" && acc.2 = "" && !frTruthy then none
                else
                  let delta := Json.obj
                    ((if acc.1 = "" then [] else [("content", Json.str acc.1)])
                      ++ (if acc.2 = "" then [] else [("reasoning_content", Json.str acc.2)]))
                  some ("data: " ++ Json.stringify (.obj
                    [("id", .str ("chatcmpl-" ++ cid)),
                     ("object", .str "chat.completion.chunk"),
                     ("created", .num (Int.ofNat (now / 1000))),
                     ("model", .str modelName),
                     ("choices", .arr [Json.obj
                       [("index", .num 0), ("delta", delta),
                        ("finish_reason", if frTruthy then fr.getD .null else .null)]])])
                    ++ "\n\n")

/-- The OpenAI streaming copy loop: translate each truthy data chunk,
write `[DONE]` on the end sentinel; an exhausted script is the thrown
queue timeout (second component). -/
def oaiStreamLoop (cids : Nat → String) (now : Nat) (modelName : String) :
    Nat → List RelayMsg → Response → Response × Option String
  | _, [], res => (res, some "Queue timeout")
  | i, m :: rest, res =>
      match m with
      | .streamEnd => (res.write "data: [DONE]\n\n", none)
      | _ =>
          match m.dataField with
          | some d =>
              if d = "" then oaiStreamLoop cids now modelName i rest res
              else
                (match translateGoogleToOpenAIStream (cids i) now modelName d with
                 | some s => oaiStreamLoop cids now modelName (i + 1) rest (res.write s)
                 | none => oaiStreamLoop cids now modelName (i + 1) rest res)
          | none => oaiStreamLoop cids now modelName i rest res

/-- The parts classification of the OpenAI non-stream response builder:
inline data renders as a full Markdown data URI, thought parts feed
`reasoning_content`, everything else feeds `content`. -/
def oaiAccumulateParts (prts : List Json) : String × String :=
  prts.foldl
    (fun (a : String × String) p =>
      match p.getField "inlineData" with
      | some idv =>
          if idv.truthy then
            (a.1 ++ "![Generated Image](data:" ++ jsFieldStr idv "mimeType"
              ++ ";base64," ++ jsFieldStr idv "data" ++ ")\n", a.2)
          else if hasThought p then (a.1, a.2 ++ jsTextOrEmpty p)
          else (a.1 ++ jsTextOrEmpty p, a.2)
      | none =>
          if hasThought p then (a.1, a.2 ++ jsTextOrEmpty p)
          else (a.1 ++ jsTextOrEmpty p, a.2)) ("", "")

/-- `candidate?.finishReason || "UNKNOWN"` rendered into the response. -/
def finishReasonOf (c : Option Json) : String :=
  match c with
  | some cj =>
      (match cj.getField "finishReason" with
       | some v => if v.truthy then jsToString v else "UNKNOWN"
       | none => "UNKNOWN")
  | none => "UNKNOWN"

/-- The inner `try` block of `processOpenAIRequest` (after the forward):
initial dequeue, error escalation, then the stream or buffered branch.
The second component is an error propagating to the catch block. -/
def oaiInner (cfg : Config) (oFail : SwitchOutcome) (conn : Bool)
    (pr : ProxyRequest) (script : List RelayMsg) (isStream : Bool)
    (modelName rid : String) (cids : Nat → String) (now : Nat)
    (h : HState) (res : Response) : RunOut × Option String :=
  if !conn then (⟨h, res, [], []⟩, some "No available browser connection.")
  else
    match script with
    | [] => (⟨h, res, [pr], []⟩, some "Queue timeout")
    | m :: rest =>
        if m.isError then
          let out := handleRequestFailureAndSwitch cfg oFail m.statusField m.errMsg
            (some res) h
          let res1 := out.2.1.getD res
          if isStream then
            (⟨out.1, (if res1.writableEnded then res1
                      else (res1.write "data: [DONE]\n\n").end), [pr], out.2.2⟩, none)
          else
            (⟨out.1, sendErrorResponse res1 (some (jsOrN m.statusField 500)) m.errMsg,
              [pr], out.2.2⟩, none)
        else
          let h1 := if h.failureCount > 0 then { h with failureCount := 0 } else h
          if isStream then
            let res1 := (((res.status 200).setHeader
                "Content-Type" "text/event-stream").setHeader
                "Cache-Control" "no-cache").setHeader "Connection" "keep-alive"
            let lp := oaiStreamLoop cids now modelName 0 rest res1
            (⟨h1, lp.1, [pr], []⟩, lp.2)
          else
            match nonStreamDrain rest with
            | none => (⟨h1, res, [pr], []⟩, some "Queue timeout")
            | some (fullBody, _) =>
                match jsonFromString fullBody with
                | none => (⟨h1, res, [pr], []⟩, some "Unexpected token in JSON")
                | some gj =>
                    let c := candidate0 gj
                    let partsRaw := c.bind (fun cj => cj.getField "content")
                      |>.bind (fun con => con.getField "parts")
                    match partsRaw with
                    | some (.arr prts) =>
                        let acc := oaiAccumulateParts prts
                        (⟨h1, (res.status 200).json (.obj
                           [("id", .str ("chatcmpl-" ++ rid)),
                            ("object", .str "chat.completion"),
                            ("created", .num (Int.ofNat (now / 1000))),
                            ("model", .str modelName),
                            ("choices", .arr [Json.obj
                              [("index", .num 0),
                               ("message", .obj
                                 [("role", .str "assistant"),
                                  ("content", .str acc.1),
                                  ("reasoning_content",
                                    if acc.2 = "" then .null else .str acc.2)]),
                               ("finish_reason", .str (finishReasonOf c))]])]),
                          [pr], []⟩, none)
                    | some v =>
                        if v.truthy then
                          (⟨h1, res, [pr], []⟩, some "forEach is not a function")
                        else
                          (⟨h1, (res.status 200).json (.obj
                             [("id", .str ("chatcmpl-" ++ rid)),
                              ("object", .str "chat.completion"),
                              ("created", .num (Int.ofNat (now / 1000))),
                              ("model", .str modelName),
                              ("choices", .arr [Json.obj
                                [("index", .num 0),
                                 ("message", .obj
                                   [("role", .str "assistant"),
                                    ("content", .str ""),
                                    ("reasoning_content", Json.null)]),
                                 ("finish_reason", .str (finishReasonOf c))]])]),
                            [pr], []⟩, none)
                    | none =>
                        (⟨h1, (res.status 200).json (.obj
                           [("id", .str ("chatcmpl-" ++ rid)),
                            ("object", .str "chat.completion"),
                            ("created", .num (Int.ofNat (now / 1000))),
                            ("model", .str modelName),
                            ("choices", .arr [Json.obj
                              [("index", .num 0),
                               ("message", .obj
                                 [("role", .str "assistant"),
                                  ("content", .str ""),
                                  ("reasoning_content", Json.null)]),
                               ("finish_reason", .str (finishReasonOf c))]])]),
                          [pr], []⟩, none)

/-- `RequestHandler.processOpenAIRequest`: gate, active-count increment,
usage trigger, model defaulting and redirect, translation (a failure is
the early 400 return, with no rollback of the usage trigger and no
deferred-switch check), then the forwarded request and its `finally`. -/
def processOpenAIRequest (cfg : Config) (fl : SystemFlags) (rid : String)
    (cids : Nat → String) (now : Nat) (conn : Bool)
    (oFail oIdle : SwitchOutcome) (body : OAIBody) (script : List RelayMsg)
    (h : HState) (res : Response) : RunOut :=
  if h.pendingSwitch || h.isAuthSwitching then
    ⟨h, sendErrorResponse res (some 503) (some "Server rotating accounts..."), [], []⟩
  else
    let h1 := { h with activeRequestCount := h.activeRequestCount + 1 }
    let h2 := if cfg.switchOnUses > 0 && !h1.pendingSwitch then
        let p := usageSwitchUpdate cfg.switchOnUses (h1.usageCount, h1.pendingSwitch)
        { h1 with usageCount := p.1, pendingSwitch := p.2 }
      else h1
    let isStream := body.stream == some true
    let model0 := jsOrStr body.model "gemini-1.5-pro-latest"
    let modelName := if fl.redirect25to30 && model0 == "gemini-2.5-pro"
      then "gemini-3-pro-preview" else model0
    match translateOpenAIToGoogle fl.enableReasoning body with
    | none =>
        ⟨{ h2 with activeRequestCount := h2.activeRequestCount - 1 },
          sendErrorResponse res (some 400) (some "Invalid OpenAI request format."),
          [], []⟩
    | some gb =>
        let endpoint := if isStream then "streamGenerateContent" else "generateContent"
        let pr : ProxyRequest :=
          { path := "/v1beta/models/" ++ modelName ++ ":" ++ endpoint,
            method := "POST",
            headers := [("Content-Type", "application/json")],
            query_params := if isStream then [("alt", "sse")] else [],
            body := Json.stringify (googleReqToJson gb),
            request_id := rid, is_generative := true,
            streaming_mode := "real", client_wants_stream := true,
            resume_on_prohibit := fl.enableResume, resume_limit := fl.resumeLimit }
        let out := applyCatch (oaiInner cfg oFail conn pr script isStream modelName rid cids now h2 res)
        let res3 := finallyEnd out.res
        let h3 := { out.h with activeRequestCount := out.h.activeRequestCount - 1 }
        let idle := tryExecutePendingSwitch oIdle h3
        ⟨idle.1, res3, out.fwd, out.sw ++ idle.2⟩

/-! ## The model-list route (`processModelListRequest`) -/

/-- One translated model entry; `none` is the `TypeError` thrown when
`model.name` is missing or not a string. -/
def modelEntry (now : Nat) (j : Json) : Option Json :=
  match j.getField "name" with
  | some (.str n) =>
      some (.obj [("id", .str (replaceFirst n "models/" "")),
                  ("object", .str "model"),
                  ("created", .num (Int.ofNat (now / 1000))),
                  ("owned_by", .str "google")])
  | _ => none

/-- The response computed by the `try` block of
`processModelListRequest`: drain the relay answer, translate the model
entries, and collapse every thrown error to the same 500 response. -/
def modelListRespond (now : Nat) (script : List RelayMsg) (res : Response) : Response :=
  let err500 := fun (r : Response) =>
    sendErrorResponse r (some 500) (some "Failed to fetch model list.")
  match script with
  | [] => err500 res
  | m :: rest =>
      if m.isError then err500 res
      else
        match nonStreamDrain rest with
        | none => err500 res
        | some (fullBody, _) =>
            let models : Json := match jsonFromString fullBody with
              | some j =>
                  (match j.getField "models" with
                   | some v => if v.truthy then v else .arr []
                   | none => .arr [])
              | none => .arr []
            match models with
            | .arr xs =>
                (match xs.mapM (modelEntry now) with
                 | some entries =>
                     (res.status 200).json
                       (.obj [("object", .str "list"), ("data", .arr entries)])
                 | none => err500 res)
            | _ => err500 res

/-- `RequestHandler.processModelListRequest`.  Note: this route has no
acceptance gate and does not touch the rotation state; with a live
connection it always forwards its frame, and every failure inside the
`try` collapses to the same 500 response. -/
def processModelListRequest (fl : SystemFlags) (rid : String) (now : Nat)
    (conn : Bool) (req : HttpReq) (script : List RelayMsg)
    (h : HState) (res : Response) : RunOut :=
  let pr0 := buildProxyRequest fl req rid
  let pr := { pr0 with path := "/v1beta/models", method := "GET",
                       streaming_mode := "fake" }
  if !conn then
    ⟨h, sendErrorResponse res (some 500) (some "Failed to fetch model list."), [], []⟩
  else ⟨h, modelListRespond now script res, [pr], []⟩

/-! ## Specification-side definitions

These follow the wording of the specification (not the source), for the
refinement comparisons of claim C7. -/

/-- C7 claim wording: assistant maps to model while other roles are
kept unchanged. -/
def claimRoleMap (r : String) : String :=
  if r == "assistant" then "model" else r

/-- C7 claim wording: any `data:<mime>;base64,<data>` image URL becomes
inline data (split at the first `;base64,`). -/
def claimDataUrl (url : String) : Option (String × String) :=
  if charsStartWith url.toList "data:".toList then
    splitFirst (String.mk (url.toList.drop 5)) ";base64,"
  else none

/-- C7 claim wording for one array-content entry: text parts verbatim,
data URLs to inline data, non-data URLs dropped. -/
def claimPartToGoogle : OAIContentPart → List GPart
  | .text t => [.text t]
  | .imageUrl url =>
      (match claimDataUrl url with
       | some (m, d) => [.inlineData m d]
       | none => [])
  | .other => []

/-- C7 claim wording for one message content. -/
def claimMsgParts : OAIContent → List GPart
  | .str s => [.text s]
  | .parts ps => ps.flatMap claimPartToGoogle
  | .undef => []

/-- C7 claim wording for the translated `contents`. -/
def claimContents (ms : List OAIMessage) : List GContent :=
  (ms.filter (fun m => m.role != "system")).map
    (fun m => ⟨claimRoleMap m.role, claimMsgParts m.content⟩)

/-- C7 claim wording for the merged system instruction: all system
messages collapse into a single text part joining their contents with
newlines; no system message, no instruction. -/
def claimSystemInstruction (ms : List OAIMessage) : Option (List GPart) :=
  let sys := ms.filter (fun m => m.role == "system")
  if sys.isEmpty then none
  else some [.text (String.intercalate "\n" (sys.map (fun m => contentJoinString m.content)))]

/-- C7 amended wording: assistant maps to model and every other
non-system role maps to user. -/
def amendedRoleMap (r : String) : String :=
  if r == "assistant" then "model" else "user"

/-- C7 amended wording for the translated `contents` (image URLs per
the source regex: `data:image/...;base64,...` without newlines). -/
def amendedContents (ms : List OAIMessage) : List GContent :=
  (ms.filter (fun m => m.role != "system")).map
    (fun m => ⟨amendedRoleMap m.role, msgParts m.content⟩)

/-! ## Concrete fixtures for counterexamples and witnesses -/

/-- A configuration with the documented defaults. -/
def fxCfg : Config :=
  { failureThreshold := 3, switchOnUses := 40, maxRetries := 1,
    retryDelay := 0, immediateSwitchStatusCodes := [429, 503] }

/-- The same configuration with two attempts (one retry). -/
def fxCfgRetry : Config := { fxCfg with maxRetries := 2 }

/-- The same configuration with a usage limit of two. -/
def fxCfgUses2 : Config := { fxCfg with switchOnUses := 2 }

/-- Pseudo-streaming mode flags. -/
def fxFlFake : SystemFlags := { streamingMode := "fake" }

/-- A streaming generative client request. -/
def fxReqStream : HttpReq :=
  { method := "POST", path := "/v1beta/models/gemini-pro:streamGenerateContent" }

/-- A non-streaming generative client request. -/
def fxReqNonStream : HttpReq :=
  { method := "POST", path := "/v1beta/models/gemini-pro:generateContent" }

/-- Relay script: first attempt fails with 500, the re-forwarded
request delivers headers, one buffered chunk and a clean end. -/
def fxScriptRetry : List RelayMsg :=
  [.error (some 500) (some "x"), .responseHeaders (some 200) [],
   .chunk (some "B"), .streamEnd]

/-- Relay script delivering a single immediate 429 error. -/
def fxScript429 : List RelayMsg := [.error (some 429) (some "quota")]

/-- A rotation state with a pending switch. -/
def fxHPending : HState := { pendingSwitch := true }

/-- A rotation state with one usage consumed. -/
def fxHUsage1 : HState := { usageCount := 1 }

/-- Messages exercising the role mapping and the image-URL matching of
the translator. -/
def fxMsC7 : List OAIMessage :=
  [⟨"system", .str "S"⟩, ⟨"tool", .str "T"⟩,
   ⟨"user", .parts [.imageUrl "data:application/pdf;base64,AAA"]⟩]

/-- An OpenAI body whose translation throws (no `messages`). -/
def fxBodyBad : OAIBody := { stream := some false }

/-- A well-formed non-streaming OpenAI body. -/
def fxBodyNonStream : OAIBody :=
  { messages := some [⟨"user", .str "hi"⟩], stream := some false }

/-- A committed (headers-sent) response handle. -/
def fxResSent : Response := (Response.fresh.status 200).write "x"

/-- Recursive application of the usage trigger to a run of accepted
generative requests starting from a zero counter and no pending
switch. -/
def usageRun (lim : Nat) : Nat → Nat × Bool
  | 0 => (0, false)
  | k + 1 => usageSwitchUpdate lim (usageRun lim k)

/-- Invariant connecting the committed-status count of a response to
its headers-sent flag: a handle starts at zero and every commit is
guarded, so the count is exactly one after commitment. -/
def startsOk (r : Response) : Prop :=
  r.starts = (if r.headersSent then 1 else 0)

/-- Relay script whose second attempt is answered by a client-abort
error. -/
def fxScriptAborted : List RelayMsg :=
  [.error (some 500) (some "x"), .error (some 500) (some "request aborted"),
   .responseHeaders (some 200) []]

/-- The defaults with the failure threshold disabled. -/
def fxCfgTh0 : Config := { fxCfg with failureThreshold := 0 }

/-- A clean successful relay answer. -/
def fxScriptOk : List RelayMsg :=
  [.responseHeaders (some 200) [], .chunk (some "B"), .streamEnd]

/-- A rotation state carrying two counted failures. -/
def fxHFail2 : HState := { failureCount := 2 }

/-- A concrete forwarded frame. -/
def fxPr : ProxyRequest := buildProxyRequest fxFlFake fxReqStream "rid"

/-! # Helper lemmas -/

/-- Push-style fold equals map (the JavaScript `for`-loop with
`push`). -/
theorem foldl_push_eq_map {α β : Type} (f : α → β) :
    ∀ (l : List α) (acc : List β),
      l.foldl (fun a x => a ++ [f x]) acc = acc ++ l.map f := by
  intro l
  induction l with
  | nil => intro acc; simp
  | cons x t ih => intro acc; simp [ih]

/-- The fresh handle satisfies the single-start invariant. -/
theorem startsOk_fresh : startsOk Response.fresh := rfl

/-- `status` preserves the single-start invariant. -/
theorem startsOk_status (r : Response) (s : Nat) (h0 : startsOk r) :
    startsOk (r.status s) := h0

/-- `setHeader` preserves the single-start invariant. -/
theorem startsOk_setHeader (r : Response) (n v : String) (h0 : startsOk r) :
    startsOk (r.setHeader n v) := by
  unfold Response.setHeader
  split <;> simpa [startsOk] using h0

/-- The commit step preserves the single-start invariant. -/
theorem startsOk_commit (r : Response) (h0 : startsOk r) : startsOk r.commit := by
  unfold Response.commit startsOk at *
  split <;> simp_all

/-- `write` preserves the single-start invariant. -/
theorem startsOk_write (r : Response) (d : String) (h0 : startsOk r) :
    startsOk (r.write d) := by
  have h1 := startsOk_commit r h0
  unfold Response.write
  simpa [startsOk] using h1

/-- `end` preserves the single-start invariant. -/
theorem startsOk_end (r : Response) (h0 : startsOk r) : startsOk r.end := by
  have h1 := startsOk_commit r h0
  unfold Response.end
  simpa [startsOk] using h1

/-- `send` preserves the single-start invariant. -/
theorem startsOk_send (r : Response) (s : String) (h0 : startsOk r) :
    startsOk (r.send s) :=
  startsOk_end _ (startsOk_write _ _ h0)

/-- `json` preserves the single-start invariant. -/
theorem startsOk_json (r : Response) (j : Json) (h0 : startsOk r) :
    startsOk (r.json j) :=
  startsOk_end _ (startsOk_write _ _ (startsOk_setHeader _ _ _ h0))

/-- `_sendErrorResponse` preserves the single-start invariant. -/
theorem startsOk_sendErrorResponse (r : Response) (st : Option Nat)
    (msg : Option String) (h0 : startsOk r) :
    startsOk (sendErrorResponse r st msg) := by
  unfold sendErrorResponse
  split
  · exact h0
  · exact startsOk_json _ _ (startsOk_status _ _ h0)

/-- `_handleRequestError` preserves the single-start invariant. -/
theorem startsOk_handleRequestError (e : String) (r : Response) (h0 : startsOk r) :
    startsOk (handleRequestError e r) := by
  unfold handleRequestError
  split
  · split
    · exact h0
    · exact startsOk_end _ h0
  · exact startsOk_sendErrorResponse _ _ _ h0

/-- `_sendErrorChunkToClient` preserves the single-start invariant. -/
theorem startsOk_sendErrorChunkToClient (r : Response) (msg : Option String)
    (h0 : startsOk r) : startsOk (sendErrorChunkToClient r msg) := by
  unfold sendErrorChunkToClient
  dsimp only
  split
  · exact h0
  · exact startsOk_write _ _ h0

/-- The header-copy step preserves the single-start invariant. -/
theorem startsOk_copyHeaderStep (isStream : Bool) (r : Response)
    (nv : String × String) (h0 : startsOk r) :
    startsOk (copyHeaderStep isStream r nv) := by
  unfold copyHeaderStep
  split
  · exact h0
  · split
    · exact h0
    · exact startsOk_setHeader _ _ _ h0

/-- The header-copy fold preserves the single-start invariant. -/
theorem startsOk_copyHeaderFold (isStream : Bool) (l : List (String × String)) :
    ∀ (r : Response), startsOk r →
      startsOk (l.foldl (copyHeaderStep isStream) r) := by
  induction l with
  | nil => intro r h0; simpa using h0
  | cons x t ih =>
      intro r h0
      simp only [List.foldl_cons]
      exact ih _ (startsOk_copyHeaderStep _ _ _ h0)

/-- `_setResponseHeaders` preserves the single-start invariant. -/
theorem startsOk_setResponseHeaders (r : Response) (m : RelayMsg) (b : Bool)
    (h0 : startsOk r) : startsOk (setResponseHeaders r m b) := by
  unfold setResponseHeaders
  dsimp only
  have h2 := startsOk_copyHeaderFold b m.headersField
    (r.status (jsOrN m.statusField 200)) (startsOk_status r (jsOrN m.statusField 200) h0)
  split
  · exact startsOk_setHeader _ _ _ (startsOk_setHeader _ _ _ (startsOk_setHeader _ _ _ h2))
  · exact h2

/-- The `finally` end preserves the single-start invariant. -/
theorem startsOk_finallyEnd (r : Response) (h0 : startsOk r) :
    startsOk (finallyEnd r) := by
  unfold finallyEnd
  split
  · exact h0
  · exact startsOk_end _ h0

/-- The real-stream copy loop preserves the single-start invariant. -/
theorem startsOk_realStreamDrain (script : List RelayMsg) :
    ∀ (r : Response), startsOk r → startsOk (realStreamDrain r script) := by
  induction script with
  | nil => intro r h0; simpa [realStreamDrain] using h0
  | cons m rest ih =>
      intro r h0
      cases m with
      | streamEnd => simpa [realStreamDrain] using h0
      | responseHeaders st hs => simpa [realStreamDrain, RelayMsg.dataField] using ih r h0
      | error st msg => simpa [realStreamDrain, RelayMsg.dataField] using ih r h0
      | chunk d =>
          cases d with
          | none => simpa [realStreamDrain, RelayMsg.dataField] using ih r h0
          | some s =>
              by_cases hempty : s = ""
              · simpa [realStreamDrain, RelayMsg.dataField, hempty] using ih r h0
              · simpa [realStreamDrain, RelayMsg.dataField, hempty] using
                  ih _ (startsOk_write r s h0)

/-- The OpenAI stream copy loop preserves the single-start invariant. -/
theorem startsOk_oaiStreamLoop (cids : Nat → String) (now : Nat) (modelName : String)
    (script : List RelayMsg) :
    ∀ (i : Nat) (r : Response), startsOk r →
      startsOk (oaiStreamLoop cids now modelName i script r).1 := by
  induction script with
  | nil => intro i r h0; simpa [oaiStreamLoop] using h0
  | cons m rest ih =>
      intro i r h0
      cases m with
      | streamEnd => simpa [oaiStreamLoop] using startsOk_write _ _ h0
      | responseHeaders st hs => simpa [oaiStreamLoop, RelayMsg.dataField] using ih i r h0
      | error st msg => simpa [oaiStreamLoop, RelayMsg.dataField] using ih i r h0
      | chunk d =>
          cases d with
          | none => simpa [oaiStreamLoop, RelayMsg.dataField] using ih i r h0
          | some s =>
              by_cases hempty : s = ""
              · simpa [oaiStreamLoop, RelayMsg.dataField, hempty] using ih i r h0
              · cases htr : translateGoogleToOpenAIStream (cids i) now modelName s with
                | none =>
                    simpa [oaiStreamLoop, RelayMsg.dataField, hempty, htr] using
                      ih (i + 1) r h0
                | some out =>
                    simpa [oaiStreamLoop, RelayMsg.dataField, hempty, htr] using
                      ih (i + 1) _ (startsOk_write _ _ h0)

/-- The failure-escalation path can only append an error chunk to the
response, preserving the single-start invariant. -/
theorem startsOk_handleFailureRes (cfg : Config) (o : SwitchOutcome)
    (st : Option Nat) (msg : Option String) (r : Response) (h : HState)
    (h0 : startsOk r) :
    startsOk ((handleRequestFailureAndSwitch cfg o st msg (some r) h).2.1.getD r) := by
  unfold handleRequestFailureAndSwitch
  dsimp only
  repeat' split
  all_goals simp only [Option.map_some', Option.getD_some]
  all_goals first
    | exact h0
    | exact startsOk_sendErrorChunkToClient _ _ h0

/-- The pseudo-stream handler preserves the single-start invariant. -/
theorem startsOk_pseudoStream (cfg : Config) (o : SwitchOutcome) (conn : Bool)
    (pr : ProxyRequest) (script : List RelayMsg) (h : HState) (res : Response)
    (h0 : startsOk res) :
    startsOk (pseudoStream cfg o conn pr script h res).res := by
  unfold pseudoStream
  have hres : startsOk ((((res.status 200).setHeader "Content-Type"
      "text/event-stream").setHeader "Cache-Control" "no-cache").setHeader
      "Connection" "keep-alive") :=
    startsOk_setHeader _ _ _ (startsOk_setHeader _ _ _
      (startsOk_setHeader _ _ _ (startsOk_status _ _ h0)))
  dsimp only
  repeat' split
  all_goals try dsimp only
  all_goals first
    | exact startsOk_finallyEnd _ (startsOk_handleRequestError _ _ hres)
    | exact startsOk_finallyEnd _ (startsOk_sendErrorChunkToClient _ _
        (startsOk_handleFailureRes _ _ _ _ _ _ hres))
    | exact startsOk_finallyEnd _ (startsOk_write _ _ hres)
    | exact startsOk_finallyEnd _ (startsOk_write _ _ (startsOk_write _ _ hres))

/-- The real-stream handler preserves the single-start invariant. -/
theorem startsOk_realStream (cfg : Config) (o : SwitchOutcome) (conn : Bool)
    (pr : ProxyRequest) (script : List RelayMsg) (h : HState) (res : Response)
    (h0 : startsOk res) :
    startsOk (realStream cfg o conn pr script h res).1.res := by
  unfold realStream
  dsimp only
  repeat' split
  all_goals try dsimp only
  all_goals first
    | exact h0
    | exact startsOk_sendErrorResponse _ _ _ h0
    | exact startsOk_finallyEnd _ (startsOk_realStreamDrain _ _
        (startsOk_setResponseHeaders _ _ _ h0))

/-- The non-stream handler preserves the single-start invariant. -/
theorem startsOk_nonStream (cfg : Config) (o : SwitchOutcome) (conn : Bool)
    (pr : ProxyRequest) (script : List RelayMsg) (h : HState) (res : Response)
    (h0 : startsOk res) :
    startsOk (nonStream cfg o conn pr script h res).1.res := by
  unfold nonStream
  dsimp only
  repeat' split
  all_goals try dsimp only
  all_goals first
    | exact h0
    | exact startsOk_handleRequestError _ _ h0
    | exact startsOk_sendErrorResponse _ _ _ h0
    | exact startsOk_send _ _ (startsOk_setHeader _ _ _ (startsOk_status _ _ h0))

/-- The model-list response computation preserves the single-start
invariant. -/
theorem startsOk_modelListRespond (now : Nat) (script : List RelayMsg)
    (res : Response) (h0 : startsOk res) :
    startsOk (modelListRespond now script res) := by
  unfold modelListRespond
  dsimp only
  repeat' split
  all_goals first
    | exact startsOk_sendErrorResponse _ _ _ h0
    | exact startsOk_json _ _ (startsOk_status _ _ h0)

/-- The OpenAI inner block preserves the single-start invariant. -/
theorem startsOk_oaiInner (cfg : Config) (oF : SwitchOutcome) (conn : Bool)
    (pr : ProxyRequest) (script : List RelayMsg) (isStream : Bool)
    (modelName rid : String) (cids : Nat → String) (now : Nat)
    (h : HState) (res : Response) (h0 : startsOk res) :
    startsOk (oaiInner cfg oF conn pr script isStream modelName rid cids now h res).1.res := by
  unfold oaiInner
  dsimp only
  repeat' split
  all_goals try dsimp only
  all_goals first
    | exact h0
    | exact startsOk_end _ (startsOk_write _ _ (startsOk_handleFailureRes _ _ _ _ _ _ h0))
    | exact startsOk_handleFailureRes _ _ _ _ _ _ h0
    | exact startsOk_sendErrorResponse _ _ _ (startsOk_handleFailureRes _ _ _ _ _ _ h0)
    | exact startsOk_oaiStreamLoop _ _ _ _ _ _ (startsOk_setHeader _ _ _
        (startsOk_setHeader _ _ _ (startsOk_setHeader _ _ _ (startsOk_status _ _ h0))))
    | exact startsOk_json _ _ (startsOk_status _ _ h0)

/-- `applyCatch` preserves the single-start invariant. -/
theorem startsOk_applyCatch (p : RunOut × Option String) (hp : startsOk p.1.res) :
    startsOk (applyCatch p).res := by
  rcases p with ⟨out, err⟩
  cases err
  · exact hp
  · exact startsOk_handleRequestError _ _ hp

/-- The pass-through main path preserves the single-start invariant. -/
theorem startsOk_processRequestMain (cfg : Config) (fl : SystemFlags) (rid : String)
    (conn : Bool) (oF oI : SwitchOutcome) (req : HttpReq) (script : List RelayMsg)
    (h : HState) (res : Response) (h0 : startsOk res) :
    startsOk (processRequestMain cfg fl rid conn oF oI req script h res).res := by
  unfold processRequestMain
  dsimp only
  apply startsOk_applyCatch
  by_cases hws : wantsStreamOf req = true
  · rw [if_pos hws]
    by_cases hsm : (fl.streamingMode == "fake") = true
    · rw [if_pos hsm]
      exact startsOk_pseudoStream _ _ _ _ _ _ _ h0
    · rw [if_neg hsm]
      exact startsOk_realStream _ _ _ _ _ _ _ h0
  · rw [if_neg hws]
    exact startsOk_nonStream _ _ _ _ _ _ _ h0

/-- The pass-through pipeline preserves the single-start invariant. -/
theorem startsOk_processRequest (cfg : Config) (fl : SystemFlags) (rid : String)
    (conn rec : Bool) (oF oI : SwitchOutcome) (req : HttpReq)
    (script : List RelayMsg) (h : HState) (res : Response) (h0 : startsOk res) :
    startsOk (processRequest cfg fl rid conn rec oF oI req script h res).res := by
  unfold processRequest
  dsimp only
  repeat' split
  all_goals try dsimp only
  all_goals first
    | exact startsOk_sendErrorResponse _ _ _ h0
    | exact startsOk_processRequestMain _ _ _ _ _ _ _ _ _ _ h0

/-- The OpenAI pipeline preserves the single-start invariant. -/
theorem startsOk_processOpenAIRequest (cfg : Config) (fl : SystemFlags)
    (rid : String) (cids : Nat → String) (now : Nat) (conn : Bool)
    (oF oI : SwitchOutcome) (body : OAIBody) (script : List RelayMsg)
    (h : HState) (res : Response) (h0 : startsOk res) :
    startsOk (processOpenAIRequest cfg fl rid cids now conn oF oI body script h res).res := by
  unfold processOpenAIRequest
  dsimp only
  by_cases hg : (h.pendingSwitch || h.isAuthSwitching) = true
  · rw [if_pos hg]
    exact startsOk_sendErrorResponse _ _ _ h0
  · rw [if_neg hg]
    cases ht : translateOpenAIToGoogle fl.enableReasoning body with
    | none =>
        dsimp only
        exact startsOk_sendErrorResponse _ _ _ h0
    | some gb =>
        dsimp only
        exact startsOk_finallyEnd _ (startsOk_applyCatch _
          (startsOk_oaiInner _ _ _ _ _ _ _ _ _ _ _ _ h0))

/-- The model-list route preserves the single-start invariant. -/
theorem startsOk_processModelListRequest (fl : SystemFlags) (rid : String)
    (now : Nat) (conn : Bool) (req : HttpReq) (script : List RelayMsg)
    (h : HState) (res : Response) (h0 : startsOk res) :
    startsOk (processModelListRequest fl rid now conn req script h res).res := by
  unfold processModelListRequest
  split
  · exact startsOk_sendErrorResponse _ _ _ h0
  · exact startsOk_modelListRespond _ _ _ h0

/-- After `_handleRequestFailureAndSwitch` the failure counter is
either zero (a completed switch reset it) or exactly the input counter
plus one when a threshold is configured (plus zero otherwise). -/
theorem failureCount_handleFailure (cfg : Config) (o : SwitchOutcome)
    (st : Option Nat) (msg : Option String) (r : Option Response) (h : HState) :
    (handleRequestFailureAndSwitch cfg o st msg r h).1.failureCount = 0
    ∨ (handleRequestFailureAndSwitch cfg o st msg r h).1.failureCount
      = h.failureCount + (if 0 < cfg.failureThreshold then 1 else 0) := by
  by_cases hth : 0 < cfg.failureThreshold <;>
    by_cases hs : h.isAuthSwitching <;>
      cases o <;>
        simp [handleRequestFailureAndSwitch, switchToNextAuth, hth, hs] <;>
          (repeat' split) <;> simp_all

/-! # Claim theorems -/

/-- C6: with `switchOnUses = N > 0`, starting from a zero usage counter
and no pending switch, the k-th accepted generative request leaves
`usageCount = min k N` and `pendingSwitch` set exactly from the N-th
request on — so the flag turns true on the N-th request, not on the
(N-1)-th, and the (N+1)-th application changes nothing. -/
theorem c6_usage_boundary (lim : Nat) (hpos : 0 < lim) :
    ∀ k, usageRun lim k = (min lim k, decide (lim ≤ k)) := by
  intro k
  induction k with
  | zero =>
      have hno : ¬ lim ≤ 0 := by omega
      simp [usageRun, hno]
  | succ k ih =>
      rw [usageRun, ih]
      by_cases hk : lim ≤ k
      · have h1 : min lim k = lim := by omega
        have h2 : min lim (k + 1) = lim := by omega
        have hk1 : lim ≤ k + 1 := by omega
        simp [usageSwitchUpdate, hk, h1, h2, hk1]
      · have h1 : min lim k = k := by omega
        have h2 : min lim (k + 1) = k + 1 := by omega
        simp [usageSwitchUpdate, hk, h1, h2, hpos, ge_iff_le]

/-- C6 witness: with a limit of three, the flag is off after two
requests, on after three, and the fourth application is a no-op. -/
theorem c6_witness :
    0 < 3 ∧ usageRun 3 2 = (min 3 2, decide (3 ≤ 2))
      ∧ usageRun 3 3 = (min 3 3, decide (3 ≤ 3))
      ∧ usageRun 3 4 = (min 3 4, decide (3 ≤ 4)) :=
  ⟨by decide, c6_usage_boundary 3 (by decide) 2, c6_usage_boundary 3 (by decide) 3,
   c6_usage_boundary 3 (by decide) 4⟩

/-- C5: in the pseudo-stream retry loop, whenever the message dequeued
at some attempt is a terminal error whose message contains "aborted",
the loop stops right there — the total number of forwards equals that
attempt's index plus one (no re-forward ever follows the aborted
error, for every `maxRetries` and script), and the request is not
marked failed. -/
theorem c5_no_retry_after_aborted :
    ∀ (n : Nat) (script : List RelayMsg) (i : Nat),
      isAbortedError (dqAt script i) = true →
      i < (pseudoAttempts n script).fwds →
      (pseudoAttempts n script).fwds = i + 1
        ∧ (pseudoAttempts n script).failed = false := by
  intro n
  induction n with
  | zero =>
      intro script i _ hlt
      simp [pseudoAttempts] at hlt
  | succ n ih =>
      intro script i hab hlt
      match script with
      | [] =>
          exfalso
          have hfa : isAbortedError (dqAt ([] : List RelayMsg) i) = false := by
            simp [dqAt]; decide
          rw [hfa] at hab
          exact Bool.false_ne_true hab
      | m :: rest =>
          by_cases he : m.isError
          · by_cases hab2 : containsAborted m.errMsg
            · rcases i with _ | i'
              · constructor <;> simp [pseudoAttempts, dequeueOrTimeout, he, hab2]
              · exfalso
                have hf : (pseudoAttempts (n + 1) (m :: rest)).fwds = 1 := by
                  simp [pseudoAttempts, dequeueOrTimeout, he, hab2]
                rw [hf] at hlt
                omega
            · rcases i with _ | i'
              · exfalso
                have habm : isAbortedError m = true := by simpa [dqAt] using hab
                simp [isAbortedError, he, hab2] at habm
              · by_cases hn : n > 0
                · have hab' : isAbortedError (dqAt rest i') = true := by
                    simpa [dqAt] using hab
                  have hfsucc : (pseudoAttempts (n + 1) (m :: rest)).fwds
                      = (pseudoAttempts n rest).fwds + 1 := by
                    simp [pseudoAttempts, dequeueOrTimeout, he, hab2, hn]
                  have hlt' : i' < (pseudoAttempts n rest).fwds := by
                    rw [hfsucc] at hlt; omega
                  obtain ⟨h1, h2⟩ := ih rest i' hab' hlt'
                  constructor
                  · rw [hfsucc, h1]
                  · simpa [pseudoAttempts, dequeueOrTimeout, he, hab2, hn] using h2
                · exfalso
                  have hf : (pseudoAttempts (n + 1) (m :: rest)).fwds = 1 := by
                    simp [pseudoAttempts, dequeueOrTimeout, he, hab2, hn]
                  rw [hf] at hlt
                  omega
          · rcases i with _ | i'
            · exfalso
              have habm : isAbortedError m = true := by simpa [dqAt] using hab
              simp [isAbortedError, he] at habm
            · exfalso
              have hf : (pseudoAttempts (n + 1) (m :: rest)).fwds = 1 := by
                simp [pseudoAttempts, dequeueOrTimeout, he]
              rw [hf] at hlt
              omega

/-- C5 witness: three allowed attempts, second answer is an aborted
error — the loop forwards exactly twice and does not mark failure. -/
theorem c5_witness :
    isAbortedError (dqAt fxScriptAborted 1) = true
    ∧ 1 < (pseudoAttempts 3 fxScriptAborted).fwds
    ∧ (pseudoAttempts 3 fxScriptAborted).fwds = 1 + 1
    ∧ (pseudoAttempts 3 fxScriptAborted).failed = false :=
  ⟨by decide, by decide,
   (c5_no_retry_after_aborted 3 fxScriptAborted 1 (by decide) (by decide)).1,
   (c5_no_retry_after_aborted 3 fxScriptAborted 1 (by decide) (by decide)).2⟩

/-- C1 (counterexample): a failure-triggered rotation begins while a
request is still in flight.  Running the pseudo-stream pipeline from a
clean state against a single relay `error{429}` makes
`_handleRequestFailureAndSwitch` invoke `_switchToNextAuth` during the
request, and the recorded rotation-begin event carries
`activeRequestCount = 1` — refuting "a rotation never begins while
activeRequestCount > 0". -/
theorem c1_counterexample :
    ((processRequest fxCfg fxFlFake "rid" true true .ok .ok fxReqStream
        fxScript429 {} .fresh).sw).map SwitchEvent.activeAtBegin = [1] := by decide

/-- C1 (amended): the deferred idle trigger `_tryExecutePendingSwitch`
begins a rotation only with `activeRequestCount = 0` and no switch in
progress, and no rotation (idle- or failure-triggered) ever begins
while `authSwitching` is already true (the busy guard makes it a
no-op); failure-triggered immediate rotations, however, do begin while
`activeRequestCount > 0`. -/
theorem c1_rotation_guards :
    (∀ (o : SwitchOutcome) (h : HState),
      ((tryExecutePendingSwitch o h).2).all
        (fun e => e.activeAtBegin == 0 && !e.authSwitchingAtBegin) = true)
    ∧ (∀ (cfg : Config) (o : SwitchOutcome) (st : Option Nat) (msg : Option String)
        (r : Option Response) (h : HState),
      ((handleRequestFailureAndSwitch cfg o st msg r h).2.2).all
        (fun e => !e.authSwitchingAtBegin) = true) := by
  constructor
  · intro o h
    by_cases hs : h.isAuthSwitching
    · simp [tryExecutePendingSwitch, hs]
    · by_cases hp : h.pendingSwitch
      · by_cases ha : h.activeRequestCount = 0
        · cases o <;> simp [tryExecutePendingSwitch, switchToNextAuth, hs, hp, ha]
        · simp [tryExecutePendingSwitch, hs, hp, ha]
      · simp [tryExecutePendingSwitch, hp]
  · intro cfg o st msg r h
    by_cases hs : h.isAuthSwitching
    · cases o <;> simp [handleRequestFailureAndSwitch, switchToNextAuth, hs]
          <;> (repeat' split) <;> simp_all
    · cases o <;> simp [handleRequestFailureAndSwitch, switchToNextAuth, hs]
          <;> (repeat' split) <;> simp_all

/-- C2 (counterexample): a model-list request arriving while a switch
is pending is still processed — its frame is forwarded to the relay and
the client receives 500 (on a dead queue) instead of the claimed 503:
`processModelListRequest` has no acceptance gate. -/
theorem c2_counterexample :
    fxHPending.pendingSwitch = true
    ∧ (processModelListRequest fxFlFake "rid" 0 true fxReqStream [] fxHPending
        .fresh).res.committedStatus = some 500
    ∧ (processModelListRequest fxFlFake "rid" 0 true fxReqStream [] fxHPending
        .fresh).fwd.length = 1 := by decide

/-- C2 (amended): while `pendingSwitch ∨ authSwitching` holds, the
pass-through pipeline and the OpenAI pipeline reject the request with
the HTTP 503 "rotating accounts" response, leaving state untouched and
forwarding nothing; the model-list route, however, is not gated and
always forwards its frame. -/
theorem c2_gate_amended :
    ∀ (cfg : Config) (fl : SystemFlags) (rid : String) (conn rec : Bool)
      (oF oI : SwitchOutcome) (req : HttpReq) (body : OAIBody)
      (cids : Nat → String) (now : Nat) (script : List RelayMsg)
      (h : HState) (res : Response),
      h.pendingSwitch = true ∨ h.isAuthSwitching = true →
      processRequest cfg fl rid conn rec oF oI req script h res
          = ⟨h, sendErrorResponse res (some 503) (some "Server rotating accounts..."),
              [], []⟩
        ∧ processOpenAIRequest cfg fl rid cids now conn oF oI body script h res
          = ⟨h, sendErrorResponse res (some 503) (some "Server rotating accounts..."),
              [], []⟩
        ∧ (processModelListRequest fl rid now true req script h res).fwd.length = 1 := by
  intro cfg fl rid conn rec oF oI req body cids now script h res hgate
  have hg : (h.pendingSwitch || h.isAuthSwitching) = true := by
    rcases hgate with h1 | h1 <;> simp [h1]
  refine ⟨?_, ?_, ?_⟩
  · simp [processRequest, hg]
  · simp [processOpenAIRequest, hg]
  · simp [processModelListRequest]

/-- C2 witness: concrete pending-switch state. -/
theorem c2_witness :
    (fxHPending.pendingSwitch = true ∨ fxHPending.isAuthSwitching = true)
    ∧ (processRequest fxCfg fxFlFake "r" true true .ok .ok fxReqStream []
          fxHPending .fresh
        = ⟨fxHPending, sendErrorResponse .fresh (some 503)
            (some "Server rotating accounts..."), [], []⟩
      ∧ processOpenAIRequest fxCfg fxFlFake "r" (fun _ => "c") 0 true .ok .ok
          fxBodyNonStream [] fxHPending .fresh
        = ⟨fxHPending, sendErrorResponse .fresh (some 503)
            (some "Server rotating accounts..."), [], []⟩
      ∧ (processModelListRequest fxFlFake "r" 0 true fxReqStream [] fxHPending
          .fresh).fwd.length = 1) :=
  ⟨Or.inl (by decide),
   c2_gate_amended fxCfg fxFlFake "r" true true .ok .ok fxReqStream fxBodyNonStream
     (fun _ => "c") 0 [] fxHPending .fresh (Or.inl (by decide))⟩

/-- C10: on the OpenAI route the usage trigger runs before translation,
so a body whose translation throws is answered 400 while still
consuming a usage credit — `activeRequestCount` is restored but
`usageCount` is incremented and `pendingSwitch` may have been raised,
with no rollback and no forward. -/
theorem c10_usage_charged_on_bad_translation :
    ∀ (cfg : Config) (fl : SystemFlags) (rid : String) (cids : Nat → String)
      (now : Nat) (conn : Bool) (oF oI : SwitchOutcome) (body : OAIBody)
      (script : List RelayMsg) (h : HState) (res : Response),
      h.pendingSwitch = false → h.isAuthSwitching = false →
      0 < cfg.switchOnUses → body.messages = none → res.headersSent = false →
      (processOpenAIRequest cfg fl rid cids now conn oF oI body script h res).res.committedStatus
          = some 400
        ∧ (processOpenAIRequest cfg fl rid cids now conn oF oI body script h res).h.usageCount
          = h.usageCount + 1
        ∧ (processOpenAIRequest cfg fl rid cids now conn oF oI body script h res).h.activeRequestCount
          = h.activeRequestCount
        ∧ (processOpenAIRequest cfg fl rid cids now conn oF oI body script h res).h.pendingSwitch
          = decide (cfg.switchOnUses ≤ h.usageCount + 1)
        ∧ (processOpenAIRequest cfg fl rid cids now conn oF oI body script h res).fwd = [] := by
  intro cfg fl rid cids now conn oF oI body script h res hp ha hpos hm hsent
  unfold processOpenAIRequest
  simp [hp, ha, hm, hpos, usageSwitchUpdate, translateOpenAIToGoogle,
        sendErrorResponse, hsent, Response.json, Response.status, Response.setHeader,
        Response.write, Response.end, Response.commit, jsOrN, ge_iff_le]

/-- C10 witness: a body without `messages`, usage limit two, one credit
already consumed — the 400 reply still raises `pendingSwitch`. -/
theorem c10_witness :
    (fxHUsage1.pendingSwitch = false ∧ fxHUsage1.isAuthSwitching = false
      ∧ 0 < fxCfgUses2.switchOnUses ∧ fxBodyBad.messages = none
      ∧ Response.fresh.headersSent = false)
    ∧ (processOpenAIRequest fxCfgUses2 fxFlFake "r" (fun _ => "c") 0 true .ok .ok
        fxBodyBad [] fxHUsage1 .fresh).res.committedStatus = some 400
    ∧ (processOpenAIRequest fxCfgUses2 fxFlFake "r" (fun _ => "c") 0 true .ok .ok
        fxBodyBad [] fxHUsage1 .fresh).h.usageCount = fxHUsage1.usageCount + 1
    ∧ (processOpenAIRequest fxCfgUses2 fxFlFake "r" (fun _ => "c") 0 true .ok .ok
        fxBodyBad [] fxHUsage1 .fresh).h.pendingSwitch
        = decide (fxCfgUses2.switchOnUses ≤ fxHUsage1.usageCount + 1) :=
  ⟨⟨by decide, by decide, by decide, by decide, by decide⟩,
   (c10_usage_charged_on_bad_translation fxCfgUses2 fxFlFake "r" (fun _ => "c") 0 true
     .ok .ok fxBodyBad [] fxHUsage1 .fresh (by decide) (by decide) (by decide)
     (by decide) (by decide)).1,
   (c10_usage_charged_on_bad_translation fxCfgUses2 fxFlFake "r" (fun _ => "c") 0 true
     .ok .ok fxBodyBad [] fxHUsage1 .fresh (by decide) (by decide) (by decide)
     (by decide) (by decide)).2.1,
   (c10_usage_charged_on_bad_translation fxCfgUses2 fxFlFake "r" (fun _ => "c") 0 true
     .ok .ok fxBodyBad [] fxHUsage1 .fresh (by decide) (by decide) (by decide)
     (by decide) (by decide)).2.2.2.1⟩

/-- C4 (counterexample): with `maxRetries = 1` the retry loop runs a
single attempt (`attempt <= maxRetries`) and retries only while
`attempt < maxRetries`, so after the first `error{500}` no re-forward
happens: the relay is contacted once, the client gets the SSE error
chunk instead of the buffered payload, and `failureCount` ends at 1,
refuting the claimed 200/success behaviour under `maxRetries = 1`. -/
theorem c4_counterexample :
    (processRequest fxCfg fxFlFake "rid" true true .ok .ok fxReqStream
        fxScriptRetry {} .fresh).fwd.length = 1
    ∧ (processRequest fxCfg fxFlFake "rid" true true .ok .ok fxReqStream
        fxScriptRetry {} .fresh).h.failureCount = 1
    ∧ (processRequest fxCfg fxFlFake "rid" true true .ok .ok fxReqStream
        fxScriptRetry {} .fresh).res.body
      = ["data: " ++ Json.stringify (.obj [("error", .obj
          [("message", .str "x"), ("code", .str "proxy_error")])]) ++ "\n\n"] := by
  decide

/-- C4 (amended): the scenario holds with `maxRetries = 2` (the code's
`maxRetries` counts total attempts, so one retry requires the value
two): in fake streaming mode with `retryDelay = 0`, a first relay
`error{500}` followed by a normal buffered response makes the client
receive HTTP 200 as SSE with exactly one data payload followed by
`data: [DONE]`, the relay is contacted exactly twice, and
`failureCount` is 0 after the success. -/
theorem c4_retry_scenario_amended :
    (processRequest fxCfgRetry fxFlFake "rid" true true .ok .ok fxReqStream
        fxScriptRetry {} .fresh).res.body = ["data: B\n\n", "data: [DONE]\n\n"]
    ∧ (processRequest fxCfgRetry fxFlFake "rid" true true .ok .ok fxReqStream
        fxScriptRetry {} .fresh).res.committedStatus = some 200
    ∧ (processRequest fxCfgRetry fxFlFake "rid" true true .ok .ok fxReqStream
        fxScriptRetry {} .fresh).res.headers.lookup "Content-Type"
      = some "text/event-stream"
    ∧ (processRequest fxCfgRetry fxFlFake "rid" true true .ok .ok fxReqStream
        fxScriptRetry {} .fresh).h.failureCount = 0
    ∧ (processRequest fxCfgRetry fxFlFake "rid" true true .ok .ok fxReqStream
        fxScriptRetry {} .fresh).fwd.length = 2 := by
  decide

/-- C7 (counterexample): the translator maps every non-assistant,
non-system role to `user` (a `tool` message does not keep its role) and
only `data:image/...` URLs become inline data (an
`application/pdf` data URL is dropped), contradicting the claim's
"other roles kept" and "any data:<mime> URL mapped" readings. -/
theorem c7_counterexample :
    googleContentsOfMessages fxMsC7 ≠ claimContents fxMsC7
    ∧ googleContentsOfMessages fxMsC7
      = [⟨"user", [.text "T"]⟩, ⟨"user", []⟩]
    ∧ claimContents fxMsC7
      = [⟨"tool", [.text "T"]⟩, ⟨"user", [.inlineData "application/pdf" "AAA"]⟩] := by
  decide

/-- C7 (amended): for every OpenAI message list, the translator merges
all system messages into a single newline-joined text part exactly as
claimed, and maps the remaining messages with role assistant to
`model` and every other role to `user`, string content to one text
part, array text parts verbatim, and `image_url` entries to inline
data exactly when they are `data:image/...;base64,...` URLs (others
are dropped). -/
theorem c7_translation_amended :
    ∀ ms : List OAIMessage,
      googleContentsOfMessages ms = amendedContents ms
      ∧ systemInstructionOfMessages ms = claimSystemInstruction ms := by
  intro ms
  constructor
  · unfold googleContentsOfMessages amendedContents
    rw [foldl_push_eq_map
      (fun m : OAIMessage =>
        (⟨if m.role == "assistant" then "model" else "user", msgParts m.content⟩ : GContent))]
    simp [amendedRoleMap]
  · unfold systemInstructionOfMessages claimSystemInstruction
    cases hsys : ms.filter (fun m => m.role == "system") with
    | nil => simp [hsys]
    | cons m0 rest => simp [hsys]

/-- C3 (counterexample): a queue timeout with no upstream event at all
still increments the failure counter.  Running the pseudo-stream
pipeline against an empty script (the relay never answers; the dequeue
race rejects and the catch fabricates `error{504,"Timeout"}`) leaves
`failureCount = 1` after a single forward — refuting "never
incremented for internal channel losses or queue timeouts". -/
theorem c3_counterexample :
    (processRequest fxCfg fxFlFake "rid" true true .ok .ok fxReqStream [] {}
        .fresh).h.failureCount = 1
    ∧ (processRequest fxCfg fxFlFake "rid" true true .ok .ok fxReqStream [] {}
        .fresh).fwd.length = 1 := by decide

/-- C3 (amended): the failure counter is incremented only when a
request concludes in terminal failure — an upstream terminal relay
error or, in the pseudo-stream path, a queue timeout/closure collapsed
into a synthetic `error{504}` — and only when `failureThreshold > 0`
(with a zero threshold it never grows); a pseudo-stream request whose
retry loop does not end in failure (including one ended by an
"aborted" client-cancellation error) leaves the counter at 0, since
the first success after a failure resets it; and in the real-stream
and non-stream paths a queue timeout leaves the counter untouched. -/
theorem c3_failure_counter_amended :
    (∀ (cfg : Config) (o : SwitchOutcome) (st : Option Nat) (msg : Option String)
        (r : Option Response) (h : HState), cfg.failureThreshold = 0 →
      (handleRequestFailureAndSwitch cfg o st msg r h).1.failureCount
        ≤ h.failureCount)
    ∧ (∀ (cfg : Config) (o : SwitchOutcome) (pr : ProxyRequest)
        (script : List RelayMsg) (h : HState) (res : Response),
      (pseudoAttempts cfg.maxRetries script).failed = false →
      (pseudoStream cfg o true pr script h res).h.failureCount = 0)
    ∧ (∀ (cfg : Config) (o : SwitchOutcome) (pr : ProxyRequest)
        (script : List RelayMsg) (h : HState) (res : Response),
      (pseudoAttempts cfg.maxRetries script).failed = true →
      (pseudoStream cfg o true pr script h res).h.failureCount = 0
      ∨ (pseudoStream cfg o true pr script h res).h.failureCount
        = h.failureCount + (if 0 < cfg.failureThreshold then 1 else 0))
    ∧ (∀ (cfg : Config) (o : SwitchOutcome) (pr : ProxyRequest)
        (h : HState) (res : Response),
      (nonStream cfg o true pr [] h res).1.h.failureCount = h.failureCount)
    ∧ (∀ (cfg : Config) (o : SwitchOutcome) (pr : ProxyRequest)
        (h : HState) (res : Response),
      (realStream cfg o true pr [] h res).1.h.failureCount = h.failureCount) := by
  refine ⟨?_, ?_, ?_, ?_, ?_⟩
  · intro cfg o st msg r h hth
    by_cases hs : h.isAuthSwitching <;> cases o <;>
      simp [handleRequestFailureAndSwitch, switchToNextAuth, hth, hs] <;>
        (repeat' split) <;> simp_all
  · intro cfg o pr script h res hfail
    unfold pseudoStream
    simp only [hfail]
    by_cases hc : 0 < h.failureCount <;>
      (repeat' split) <;> simp_all
  · intro cfg o pr script h res hfail
    have hh := failureCount_handleFailure cfg o
      ((pseudoAttempts cfg.maxRetries script).lastMsg.bind RelayMsg.statusField)
      ((pseudoAttempts cfg.maxRetries script).lastMsg.bind RelayMsg.errMsg)
      (some ((((res.status 200).setHeader "Content-Type"
          "text/event-stream").setHeader "Cache-Control" "no-cache").setHeader
          "Connection" "keep-alive")) h
    simpa [pseudoStream, hfail] using hh
  · intro cfg o pr h res
    simp [nonStream]
  · intro cfg o pr h res
    simp [realStream]

/-- C3 witness: no-threshold configuration never grows the counter; a
successful pseudo-stream answer resets two counted failures to zero; a
failed loop from two counted failures yields zero (switch reset) or
exactly three; queue timeouts in the non-stream and real-stream paths
leave the counter at two. -/
theorem c3_witness :
    (fxCfgTh0.failureThreshold = 0
      ∧ (handleRequestFailureAndSwitch fxCfgTh0 .ok (some 429) (some "q") none
          fxHFail2).1.failureCount ≤ fxHFail2.failureCount)
    ∧ ((pseudoAttempts fxCfg.maxRetries fxScriptOk).failed = false
      ∧ (pseudoStream fxCfg .ok true fxPr fxScriptOk fxHFail2 .fresh).h.failureCount = 0)
    ∧ ((pseudoAttempts fxCfg.maxRetries []).failed = true
      ∧ ((pseudoStream fxCfg .ok true fxPr [] fxHFail2 .fresh).h.failureCount = 0
        ∨ (pseudoStream fxCfg .ok true fxPr [] fxHFail2 .fresh).h.failureCount
          = fxHFail2.failureCount + (if 0 < fxCfg.failureThreshold then 1 else 0)))
    ∧ (nonStream fxCfg .ok true fxPr [] fxHFail2 .fresh).1.h.failureCount
        = fxHFail2.failureCount
    ∧ (realStream fxCfg .ok true fxPr [] fxHFail2 .fresh).1.h.failureCount
        = fxHFail2.failureCount :=
  ⟨⟨by decide, c3_failure_counter_amended.1 fxCfgTh0 .ok (some 429) (some "q") none
      fxHFail2 (by decide)⟩,
   ⟨by decide, c3_failure_counter_amended.2.1 fxCfg .ok fxPr fxScriptOk fxHFail2 .fresh
      (by decide)⟩,
   ⟨by decide, c3_failure_counter_amended.2.2.1 fxCfg .ok fxPr [] fxHFail2 .fresh
      (by decide)⟩,
   c3_failure_counter_amended.2.2.2.1 fxCfg .ok fxPr fxHFail2 .fresh,
   c3_failure_counter_amended.2.2.2.2 fxCfg .ok fxPr fxHFail2 .fresh⟩

/-- C9 (counterexample): an OpenAI chat request with `stream:false`
does not want streaming, yet its forwarded frame carries
`streaming_mode = "real"` (hard-coded in `processOpenAIRequest`),
refuting "for every client request that does not want streaming, the
forwarded relay frame carries streaming_mode=fake". -/
theorem c9_counterexample :
    fxBodyNonStream.stream = some false
    ∧ ((processOpenAIRequest fxCfg fxFlFake "rid" (fun _ => "c") 0 true .ok .ok
        fxBodyNonStream [] {} .fresh).fwd).map ProxyRequest.streaming_mode
      = ["real"] := by decide

/-- C9 (amended): on the pass-through pipeline (`processRequest`), for
every client request that does not want streaming and every successful
relay answer, the forwarded frame carries `streaming_mode = "fake"`,
the chunk data is concatenated into a single buffered body on which
the inline-data part (when present) is rewritten in place to a
Markdown image URI, and the response is sent with the original
upstream status (default 200) and `Content-Type: application/json`. -/
theorem c9_nonstream_amended :
    ∀ (cfg : Config) (fl : SystemFlags) (rid : String) (oF oI : SwitchOutcome)
      (req : HttpReq) (m : RelayMsg) (rest rest2 : List RelayMsg) (b : String)
      (h : HState),
      h.pendingSwitch = false → h.isAuthSwitching = false → h.isSystemBusy = false →
      wantsStreamOf req = false → m.isError = false →
      nonStreamDrain rest = some (b, rest2) →
      (processRequest cfg fl rid true true oF oI req (m :: rest) h
          Response.fresh).fwd.map ProxyRequest.streaming_mode = ["fake"]
      ∧ (processRequest cfg fl rid true true oF oI req (m :: rest) h
          Response.fresh).res.committedStatus = some (jsOrN m.statusField 200)
      ∧ (processRequest cfg fl rid true true oF oI req (m :: rest) h
          Response.fresh).res.headers.lookup "Content-Type"
        = some "application/json"
      ∧ (processRequest cfg fl rid true true oF oI req (m :: rest) h
          Response.fresh).res.body
        = [if rewriteFullBody b = "" then "\x7b\x7d" else rewriteFullBody b] := by
  intro cfg fl rid oF oI req m rest rest2 b h hp ha hb hw hme hd
  unfold processRequest processRequestMain nonStream
  simp [hp, ha, hb, hw, hme, hd, applyCatch, Response.fresh, Response.status,
        Response.setHeader, Response.send, Response.write, Response.end,
        Response.commit, upsertHeader, List.lookup]

/-- C9 witness: a generative POST without streaming against a
`201`-status relay answer with body "AB". -/
theorem c9_witness :
    (({} : HState).pendingSwitch = false ∧ ({} : HState).isAuthSwitching = false
      ∧ ({} : HState).isSystemBusy = false
      ∧ wantsStreamOf fxReqNonStream = false
      ∧ (RelayMsg.responseHeaders (some 201) []).isError = false
      ∧ nonStreamDrain [.chunk (some "AB"), .streamEnd] = some ("AB", []))
    ∧ (processRequest fxCfg fxFlFake "rid" true true .ok .ok fxReqNonStream
        (.responseHeaders (some 201) [] :: [.chunk (some "AB"), .streamEnd]) {}
        Response.fresh).fwd.map ProxyRequest.streaming_mode = ["fake"]
    ∧ (processRequest fxCfg fxFlFake "rid" true true .ok .ok fxReqNonStream
        (.responseHeaders (some 201) [] :: [.chunk (some "AB"), .streamEnd]) {}
        Response.fresh).res.committedStatus
      = some (jsOrN (RelayMsg.responseHeaders (some 201) []).statusField 200)
    ∧ (processRequest fxCfg fxFlFake "rid" true true .ok .ok fxReqNonStream
        (.responseHeaders (some 201) [] :: [.chunk (some "AB"), .streamEnd]) {}
        Response.fresh).res.body
      = [if rewriteFullBody "AB" = "" then "\x7b\x7d" else rewriteFullBody "AB"] :=
  ⟨⟨by decide, by decide, by decide, by decide, by decide, by decide⟩,
   (c9_nonstream_amended fxCfg fxFlFake "rid" .ok .ok fxReqNonStream
      (.responseHeaders (some 201) []) [.chunk (some "AB"), .streamEnd] [] "AB" {}
      (by decide) (by decide) (by decide) (by decide) (by decide) (by decide)).1,
   (c9_nonstream_amended fxCfg fxFlFake "rid" .ok .ok fxReqNonStream
      (.responseHeaders (some 201) []) [.chunk (some "AB"), .streamEnd] [] "AB" {}
      (by decide) (by decide) (by decide) (by decide) (by decide) (by decide)).2.1,
   (c9_nonstream_amended fxCfg fxFlFake "rid" .ok .ok fxReqNonStream
      (.responseHeaders (some 201) []) [.chunk (some "AB"), .streamEnd] [] "AB" {}
      (by decide) (by decide) (by decide) (by decide) (by decide) (by decide)).2.2.2⟩

/-- C8: the client receives at most one response start.  Once headers
have been sent, `_handleRequestError` only ends the body — committed
status, status code, start count and body are unchanged — and every
run of the three request pipelines from a fresh response handle
commits at most one status line. -/
theorem c8_single_response_start :
    (∀ (e : String) (r : Response), r.headersSent = true →
      handleRequestError e r = (if r.writableEnded then r else r.end)
      ∧ (handleRequestError e r).committedStatus = r.committedStatus
      ∧ (handleRequestError e r).statusCode = r.statusCode
      ∧ (handleRequestError e r).starts = r.starts
      ∧ (handleRequestError e r).body = r.body)
    ∧ (∀ (cfg : Config) (fl : SystemFlags) (rid : String) (conn rec : Bool)
        (oF oI : SwitchOutcome) (req : HttpReq) (script : List RelayMsg) (h : HState),
      (processRequest cfg fl rid conn rec oF oI req script h Response.fresh).res.starts ≤ 1)
    ∧ (∀ (cfg : Config) (fl : SystemFlags) (rid : String) (cids : Nat → String)
        (now : Nat) (conn : Bool) (oF oI : SwitchOutcome) (body : OAIBody)
        (script : List RelayMsg) (h : HState),
      (processOpenAIRequest cfg fl rid cids now conn oF oI body script h
        Response.fresh).res.starts ≤ 1)
    ∧ (∀ (fl : SystemFlags) (rid : String) (now : Nat) (conn : Bool)
        (req : HttpReq) (script : List RelayMsg) (h : HState),
      (processModelListRequest fl rid now conn req script h
        Response.fresh).res.starts ≤ 1) := by
  refine ⟨?_, ?_, ?_, ?_⟩
  · intro e r hsent
    unfold handleRequestError
    rw [if_pos hsent]
    by_cases hend : r.writableEnded = true
    · simp [hend]
    · simp [hend, Response.end, Response.commit, hsent]
  · intro cfg fl rid conn rec oF oI req script h
    have hinv := startsOk_processRequest cfg fl rid conn rec oF oI req script h
      Response.fresh startsOk_fresh
    unfold startsOk at hinv
    split at hinv <;> omega
  · intro cfg fl rid cids now conn oF oI body script h
    have hinv := startsOk_processOpenAIRequest cfg fl rid cids now conn oF oI body
      script h Response.fresh startsOk_fresh
    unfold startsOk at hinv
    split at hinv <;> omega
  · intro fl rid now conn req script h
    have hinv := startsOk_processModelListRequest fl rid now conn req script h
      Response.fresh startsOk_fresh
    unfold startsOk at hinv
    split at hinv <;> omega

/-- C8 witness: a committed handle keeps its start count and body under
`_handleRequestError`, and a concrete pipeline run commits at most one
status line. -/
theorem c8_witness :
    fxResSent.headersSent = true
    ∧ (handleRequestError "boom" fxResSent).starts = fxResSent.starts
    ∧ (handleRequestError "boom" fxResSent).committedStatus = fxResSent.committedStatus
    ∧ (processRequest fxCfg fxFlFake "r" true true .ok .ok fxReqStream [] {}
        Response.fresh).res.starts ≤ 1 :=
  ⟨by decide,
   (c8_single_response_start.1 "boom" fxResSent (by decide)).2.2.2.1,
   (c8_single_response_start.1 "boom" fxResSent (by decide)).2.1,
   c8_single_response_start.2.1 fxCfg fxFlFake "r" true true .ok .ok fxReqStream [] {}⟩

end B2A

